import Mathlib

/-!
# Shared lazy tessellation cache

A shallow embedding of `kernels/common/subdiv/tessellation_cache.h`
(class `SharedLazyTessellationCache`), followed by theorems about it.

Conventions of the embedding.

* `size_t`, pointers and the `AtomicCounter` fields are 64-bit words: natural
  numbers below `2 ^ 64`, with every sum and product of the source reduced
  modulo `2 ^ 64` at the place where the source computes it.
* `int64_t` values are integers in `[-2 ^ 63, 2 ^ 63)`; `toSizeT` and `toInt64`
  are the two conversions between the signed and the unsigned reading of one
  bit pattern.  A right shift of an `int64_t` is arithmetic (sign filling).
* `nullptr` is the address `0`, and `(size_t)-1` is `2 ^ 64 - 1`.
* Loops of the source that may spin forever take a fuel argument and return
  `none` when the fuel runs out.
* The build has `FORCE_SIMPLE_FLUSH == 0`, no `__MIC__`, and `assert` compiled
  out; `CACHE_STATS` and `CACHE_DBG` expand to nothing.
* Functions of one thread are embedded as functions on the state they touch.
  Where several threads matter, `lookup(entry, constructor)` is cut into the
  steps between two accesses to shared state (`stepThread`) and a schedule
  interleaves the steps of the threads (`System.run`); where the other
  threads' work states matter, the loop of `malloc` runs on the whole registry
  (`allocIndexLoopIn`).
-/

set_option linter.dupNamespace false

namespace embree

/-! ## Machine words -/

/-- Conversion of a signed value to `size_t`: its 64-bit two's-complement pattern. -/
def toSizeT (i : Int) : Nat := (i % 18446744073709551616).toNat

/-- Reading of a 64-bit pattern as an `int64_t`. -/
def toInt64 (n : Nat) : Int :=
  if n % 18446744073709551616 < 9223372036854775808 then ((n % 18446744073709551616 : Nat) : Int)
  else ((n % 18446744073709551616 : Nat) : Int) - 18446744073709551616

/-- Result of an `int64_t` computation, wrapped into the range of the type. -/
def wrapInt64 (i : Int) : Int := toInt64 (toSizeT i)

/-- The null pointer. -/
def nullptr : Nat := 0

/-- The value of `(size_t)-1`. -/
def SIZE_T_MINUS_ONE : Nat := 18446744073709551615

/-! ## Constants of the class -/

/-- `NUM_CACHE_SEGMENTS` of the non-MIC build. -/
def NUM_CACHE_SEGMENTS : Nat := 8

/-- `COMMIT_INDEX_SHIFT`. -/
def COMMIT_INDEX_SHIFT : Nat := 32

/-- `REF_TAG`, the present bit of a tag. -/
def REF_TAG : Nat := 1

/-- `REF_TAG_MASK = (~REF_TAG) & 0xffffffff`, with `~` taken on a `size_t`. -/
def REF_TAG_MASK : Nat := (18446744073709551615 - REF_TAG) &&& 0xffffffff

/-! ## State -/

/-- The fields of `SharedLazyTessellationCache` that the header reads or
writes.  `data` is the address held by `float *data`; `index`, `next_block`
and `switch_block_threshold` are the values of the `AtomicCounter` fields. -/
structure SharedLazyTessellationCache where
  data : Nat
  size : Nat
  maxBlocks : Nat
  index : Nat
  next_block : Nat
  switch_block_threshold : Nat
  deriving DecidableEq, Repr

/-- `struct Tag`: the `volatile int64_t data` word. -/
structure Tag where
  data : Int
  deriving DecidableEq, Repr

namespace SharedLazyTessellationCache

/-- `getDataPtr()`. -/
def getDataPtr (c : SharedLazyTessellationCache) : Nat := c.data

/-- `getCurrentIndex()`. -/
def getCurrentIndex (c : SharedLazyTessellationCache) : Nat := c.index

end SharedLazyTessellationCache

/-! ## Tags -/

/-- The default constructor `Tag() : data(0)`. -/
def Tag.empty : Tag := ⟨0⟩

/-- The constructor `Tag(void* ptr, size_t commitIndex)`.  The offset is the
signed difference of the two addresses; `|= REF_TAG` is computed on the
unsigned pattern (`REF_TAG` is a `size_t`) and stored back; the commit index
is cast to `int64_t`, shifted left by `COMMIT_INDEX_SHIFT` and or-ed in. -/
def Tag.Tag (c : SharedLazyTessellationCache) (ptr commitIndex : Nat) : Tag :=
  let new_root_ref : Int := toInt64 ptr
  let new_root_ref : Int := wrapInt64 (new_root_ref - toInt64 c.getDataPtr)
  let new_root_ref : Int := toInt64 (toSizeT new_root_ref ||| REF_TAG)
  let shifted : Int := wrapInt64 (toInt64 commitIndex * 2 ^ COMMIT_INDEX_SHIFT)
  let new_root_ref : Int := toInt64 (toSizeT new_root_ref ||| toSizeT shifted)
  ⟨new_root_ref⟩

/-- `extractCommitIndex(const int64_t v)`: `v >> COMMIT_INDEX_SHIFT` on a
signed operand, returned as `size_t`. -/
def extractCommitIndex (v : Int) : Nat := toSizeT (v >>> COMMIT_INDEX_SHIFT)

namespace SharedLazyTessellationCache

/-- `validCacheIndex(const size_t i)`, the `#else` branch:
`i+(NUM_CACHE_SEGMENTS-1) >= index` in `size_t` arithmetic. -/
def validCacheIndex (c : SharedLazyTessellationCache) (i : Nat) : Bool :=
  decide ((i + (NUM_CACHE_SEGMENTS - 1)) % 18446744073709551616 ≥ c.index)

/-- `lookup(volatile Tag* tag)`: the pointer stored in the tag when the tag is
populated and its commit index is valid, `nullptr` otherwise. -/
def lookup (c : SharedLazyTessellationCache) (tag : Tag) : Nat :=
  let subdiv_patch_root_ref : Int := tag.data
  if subdiv_patch_root_ref ≠ 0 then
    let subdiv_patch_root : Nat :=
      ((toSizeT subdiv_patch_root_ref &&& REF_TAG_MASK) + c.getDataPtr) % 18446744073709551616
    let subdiv_patch_cache_index : Nat := extractCommitIndex subdiv_patch_root_ref
    if c.validCacheIndex subdiv_patch_cache_index then subdiv_patch_root else nullptr
  else nullptr

/-- `lookupIndex(volatile Tag* tag)`: the offset stored in the tag, or
`(size_t)-1`. -/
def lookupIndex (c : SharedLazyTessellationCache) (tag : Tag) : Nat :=
  let subdiv_patch_root_ref : Int := tag.data
  if subdiv_patch_root_ref ≠ 0 then
    let subdiv_patch_root : Nat := toSizeT subdiv_patch_root_ref &&& REF_TAG_MASK
    let subdiv_patch_cache_index : Nat := extractCommitIndex subdiv_patch_root_ref
    if c.validCacheIndex subdiv_patch_cache_index then subdiv_patch_root else SIZE_T_MINUS_ONE
  else SIZE_T_MINUS_ONE

/-- `validTag(const Tag& tag)`. -/
def validTag (c : SharedLazyTessellationCache) (tag : Tag) : Bool :=
  let subdiv_patch_root_ref : Int := tag.data
  if subdiv_patch_root_ref = 0 then false
  else
    let subdiv_patch_cache_index : Nat := extractCommitIndex subdiv_patch_root_ref
    c.validCacheIndex subdiv_patch_cache_index

end SharedLazyTessellationCache

/-! ## Counters, reader lock and entry mutex -/

/-- Modelled from the spec: `AtomicCounter::add` (the class is declared in
`default.h`, which is not part of this file).  The counter "atomically fetches
and adds" and the caller gets "the pre-add value".  The result is the pair of
the value returned and the value stored afterwards, a 64-bit word. -/
def AtomicCounter.add (counter input : Nat) : Nat × Nat :=
  (counter, (counter + input) % 18446744073709551616)

/-- `struct ThreadWorkState`: the `counter` field of the calling thread (the
`prev` link of the registry list is not read by the functions embedded here). -/
structure ThreadWorkState where
  counter : Nat
  deriving DecidableEq, Repr

/-- Modelled from the spec: `RWMutex` of a cache entry (declared in
`default.h`), "a read/write mutex"; only its write side is used by the header.
`writeLocked` says whether some caller holds the write lock. -/
structure RWMutex where
  writeLocked : Bool
  deriving DecidableEq, Repr

/-- Modelled from the spec: `RWMutex::try_write_lock`, which takes the write
lock when nobody holds it and reports whether it did. -/
def RWMutex.try_write_lock (m : RWMutex) : Bool × RWMutex :=
  if m.writeLocked then (false, m) else (true, ⟨true⟩)

/-- Modelled from the spec: `RWMutex::write_unlock`. -/
def RWMutex.write_unlock (_m : RWMutex) : RWMutex := ⟨false⟩

/-- `struct CacheEntry`. -/
structure CacheEntry where
  mutex : RWMutex
  tag : Tag
  deriving DecidableEq, Repr

namespace SharedLazyTessellationCache

/-- `lockThread(t_state)`: `counter.add(1)`, returned as `unsigned int`. -/
def lockThread (t_state : ThreadWorkState) : Nat × ThreadWorkState :=
  let r := AtomicCounter.add t_state.counter 1
  (r.1 % 4294967296, { t_state with counter := r.2 })

/-- `unlockThread(t_state)`: `counter.add(-1)`, returned as `unsigned int`. -/
def unlockThread (t_state : ThreadWorkState) : Nat × ThreadWorkState :=
  let r := AtomicCounter.add t_state.counter 18446744073709551615
  (r.1 % 4294967296, { t_state with counter := r.2 })

/-- `isLocked(t_state)`. -/
def isLocked (t_state : ThreadWorkState) : Bool := decide (t_state.counter ≠ 0)

/-- Modelled from the spec: `waitForUsersLessEqual(t_state, users)` (only
declared in the header) waits until the counter is at most `users`.  In a run
with no other thread nobody changes the counter while the caller waits, so the
call returns exactly when the bound already holds and spins forever
(`none`) otherwise. -/
def waitForUsersLessEqual (t_state : ThreadWorkState) (users : Nat) : Option ThreadWorkState :=
  if t_state.counter ≤ users then some t_state else none

/-- `lockThreadLoop(t_state)`; one unit of fuel per iteration of `while(1)`. -/
def lockThreadLoop : Nat → ThreadWorkState → Option ThreadWorkState
  | 0, _ => none
  | fuel + 1, t_state =>
    let r := lockThread t_state
    if r.1 = 1 then
      let t1 := (unlockThread r.2).2
      match waitForUsersLessEqual t1 0 with
      | none => none
      | some t2 => lockThreadLoop fuel t2
    else some r.2

/-! ## Bump allocator -/

/-- `alloc(const size_t blocks)`: the returned `size_t` and the cache afterwards. -/
def alloc (c : SharedLazyTessellationCache) (blocks : Nat) : Nat × SharedLazyTessellationCache :=
  let r := AtomicCounter.add c.next_block blocks
  let index : Nat := r.1
  let c1 : SharedLazyTessellationCache := { c with next_block := r.2 }
  if (index + blocks) % 18446744073709551616 ≥ c1.switch_block_threshold then (SIZE_T_MINUS_ONE, c1)
  else (index, c1)

/-- `getBlockPtr(block_index)`: the address of `data[block_index*16]`, `data`
being a `float*` (4-byte elements). -/
def getBlockPtr (c : SharedLazyTessellationCache) (block_index : Nat) : Nat :=
  (c.data + 4 * ((block_index * 16) % 18446744073709551616)) % 18446744073709551616

/-- `getNumUsedBytes()`. -/
def getNumUsedBytes (c : SharedLazyTessellationCache) : Nat :=
  (c.next_block * 64) % 18446744073709551616

/-- `getMaxBlocks()`. -/
def getMaxBlocks (c : SharedLazyTessellationCache) : Nat := c.maxBlocks

/-- `getSize()`. -/
def getSize (c : SharedLazyTessellationCache) : Nat := c.size

/-- `addCurrentIndex(i)`. -/
def addCurrentIndex (c : SharedLazyTessellationCache) (i : Nat) : SharedLazyTessellationCache :=
  { c with index := (AtomicCounter.add c.index i).2 }

/-- Modelled from the spec: `resetCache()` (only declared in the header), for a
run with no other thread: the reset mutex is free and there is no other reader
to drain, so what remains of the protocol is the re-check of the allocator
("if `next_block` is below threshold, release and return"), the advance of the
generation (`G += 1`) and the rewind of the allocator (`next_block = 0`). -/
def resetCache (c : SharedLazyTessellationCache) : SharedLazyTessellationCache :=
  if c.next_block ≥ c.switch_block_threshold then
    { c.addCurrentIndex 1 with next_block := 0 }
  else c

/-- `malloc(bytes)`, with the work state that `threadState()` returns for the
calling thread passed in; one unit of fuel per iteration. -/
def malloc :
    Nat → SharedLazyTessellationCache → ThreadWorkState → Nat →
      Option (Nat × SharedLazyTessellationCache × ThreadWorkState)
  | 0, _, _, _ => none
  | fuel + 1, c, t_state, bytes =>
    let r := c.alloc ((bytes + 63) % 18446744073709551616 / 64)
    let block_index : Nat := r.1
    if block_index = SIZE_T_MINUS_ONE then
      let t1 := (unlockThread t_state).2
      let c1 := r.2.resetCache
      let t2 := (lockThread t1).2
      malloc fuel c1 t2 bytes
    else some (r.2.getBlockPtr block_index, r.2, t_state)

end SharedLazyTessellationCache

/-! ## Single-flight construction -/

/-- The caller-supplied constructor: run on the current cache and work state it
returns the pointer it built and the state it left behind, or `none` when it
does not return. -/
abbrev Constructor : Type :=
  SharedLazyTessellationCache → ThreadWorkState →
    Option (Nat × SharedLazyTessellationCache × ThreadWorkState)

/-- What a call of `lookup(CacheEntry&, Constructor)` leaves behind: the
pointer returned, the cache, the work state of the caller, the entry, and the
number of times the constructor was run. -/
structure LookupResult where
  ret : Nat
  cache : SharedLazyTessellationCache
  t_state : ThreadWorkState
  entry : CacheEntry
  constructorRuns : Nat
  deriving DecidableEq, Repr

namespace SharedLazyTessellationCache

/-- The overload `lookup(CacheEntry& entry, const Constructor constructor)`
(`lookup_or_build` in the spec) in a run with no other thread; one unit of
fuel per iteration of `while (true)`, `runs` counts constructor calls so far. -/
def lookup_or_build (constructor : Constructor) :
    Nat → SharedLazyTessellationCache → ThreadWorkState → CacheEntry → Nat → Option LookupResult
  | 0, _, _, _, _ => none
  | fuel + 1, c, t_state, entry, runs =>
    match lockThreadLoop (fuel + 1) t_state with
    | none => none
    | some t1 =>
      let patch : Nat := c.lookup entry.tag
      if patch ≠ nullptr then some ⟨patch, c, t1, entry, runs⟩
      else
        let w := entry.mutex.try_write_lock
        if w.1 then
          if !c.validTag entry.tag then
            match constructor c t1 with
            | none => none
            | some (ret, c1, t2) =>
              let commitIndex : Nat := c1.getCurrentIndex
              let tag : Tag := Tag.Tag c1 ret commitIndex
              some ⟨ret, c1, t2, ⟨w.2.write_unlock, tag⟩, runs + 1⟩
          else
            let t2 := (unlockThread t1).2
            lookup_or_build constructor fuel c t2 ⟨w.2.write_unlock, entry.tag⟩ runs
        else
          let t2 := (unlockThread t1).2
          lookup_or_build constructor fuel c t2 ⟨w.2, entry.tag⟩ runs

end SharedLazyTessellationCache

/-! ## A concrete arena -/

/-- The arena of scenario S2: 256 bytes (4 blocks of 64 bytes) at address
`4096`, generation 1, nothing allocated, threshold at the 4 blocks. -/
def arena4 : SharedLazyTessellationCache := ⟨4096, 256, 4, 1, 0, 4⟩

/-- A constructor that builds nothing new: it returns the block at offset 128
of `arena4` and leaves the cache and the work state as they are. -/
def constructorAt128 : Constructor := fun c t_state => some (4096 + 128, c, t_state)

/-- A constructor that allocates its 128 bytes from the arena with `malloc`. -/
def constructorMalloc128 : Constructor :=
  fun c t_state => SharedLazyTessellationCache.malloc 2 c t_state 128

/-! ## Sequences of allocator calls -/

/-- A sequence of `alloc` calls with no reset in between: the values returned,
in order, and the cache after the last call. -/
def SharedLazyTessellationCache.allocAll (c : SharedLazyTessellationCache) :
    List Nat → List Nat × SharedLazyTessellationCache
  | [] => ([], c)
  | n :: ns =>
    let r := c.alloc n
    let rest := SharedLazyTessellationCache.allocAll r.2 ns
    (r.1 :: rest.1, rest.2)

/-! ## The registry of work states -/

/-- Where a thread stands inside `lookup(entry, constructor)`: one value for
each point of the source that precedes an access to shared state. -/
inductive Pc where
  /-- At the top of `while (true)`, before `lockThreadLoop(t_state)`. -/
  | lockLoop
  /-- Before `lookup(&entry.tag)`. -/
  | lookupTag
  /-- Before `entry.mutex.try_write_lock()`. -/
  | tryWriteLock
  /-- The write lock is held; before `validTag(entry.tag)`. -/
  | checkValid
  /-- Inside `constructor()`. -/
  | constructing
  /-- The constructor has returned; before the store to `entry.tag`. -/
  | publish
  /-- Before the `write_unlock()` that precedes `return ret`. -/
  | unlockReturn
  /-- The tag was valid; before the `write_unlock()` that ends the `if`. -/
  | unlockRetry
  /-- Before `unlockThread(t_state)` at the end of the loop body. -/
  | unlockThread
  /-- The call has returned. -/
  | returned
  deriving DecidableEq, Repr

/-- The part of a call of `lookup(entry, constructor)` that is private to the
calling thread: its position, its work state, and the pointer it returns. -/
structure ThreadLocal where
  pc : Pc
  t_state : ThreadWorkState
  ret : Nat
  deriving DecidableEq, Repr

/-- The positions at which the thread holds the write lock of the entry:
from a successful `try_write_lock()` to the matching `write_unlock()`. -/
def Pc.holdsWriteLock : Pc → Bool
  | Pc.checkValid => true
  | Pc.constructing => true
  | Pc.publish => true
  | Pc.unlockReturn => true
  | Pc.unlockRetry => true
  | _ => false

/-- One step of one thread inside `lookup(entry, constructor)`: the statement
at its position, run atomically on the shared cache and entry.  A thread whose
`lockThreadLoop` is waiting, or whose constructor does not return, stays
where it is. -/
def stepThread (constructor : Constructor) (c : SharedLazyTessellationCache)
    (entry : CacheEntry) (th : ThreadLocal) :
    SharedLazyTessellationCache × CacheEntry × ThreadLocal :=
  match th.pc with
  | Pc.lockLoop =>
    match SharedLazyTessellationCache.lockThreadLoop 1 th.t_state with
    | some t1 => (c, entry, { th with pc := Pc.lookupTag, t_state := t1 })
    | none => (c, entry, th)
  | Pc.lookupTag =>
    let patch : Nat := c.lookup entry.tag
    if patch ≠ nullptr then (c, entry, { th with pc := Pc.returned, ret := patch })
    else (c, entry, { th with pc := Pc.tryWriteLock })
  | Pc.tryWriteLock =>
    let w := entry.mutex.try_write_lock
    if w.1 then (c, { entry with mutex := w.2 }, { th with pc := Pc.checkValid })
    else (c, { entry with mutex := w.2 }, { th with pc := Pc.unlockThread })
  | Pc.checkValid =>
    if !c.validTag entry.tag then (c, entry, { th with pc := Pc.constructing })
    else (c, entry, { th with pc := Pc.unlockRetry })
  | Pc.constructing =>
    match constructor c th.t_state with
    | none => (c, entry, th)
    | some (ret, c1, t2) => (c1, entry, { th with pc := Pc.publish, t_state := t2, ret := ret })
  | Pc.publish =>
    let commitIndex : Nat := c.getCurrentIndex
    (c, { entry with tag := Tag.Tag c th.ret commitIndex }, { th with pc := Pc.unlockReturn })
  | Pc.unlockReturn =>
    (c, { entry with mutex := entry.mutex.write_unlock }, { th with pc := Pc.returned })
  | Pc.unlockRetry =>
    (c, { entry with mutex := entry.mutex.write_unlock }, { th with pc := Pc.unlockThread })
  | Pc.unlockThread =>
    (c, entry,
      { th with pc := Pc.lockLoop,
                t_state := (SharedLazyTessellationCache.unlockThread th.t_state).2 })
  | Pc.returned => (c, entry, th)

/-- Several threads inside `lookup(entry, constructor)` on the same entry:
the shared cache and entry, and the private part of each thread by thread
number. -/
structure System where
  cache : SharedLazyTessellationCache
  entry : CacheEntry
  threads : Nat → ThreadLocal

/-- The thread numbered `i` takes its next step. -/
def System.step (constructor : Constructor) (s : System) (i : Nat) : System :=
  let r := stepThread constructor s.cache s.entry (s.threads i)
  ⟨r.1, r.2.1, Function.update s.threads i r.2.2⟩

/-- An interleaving: the threads take steps in the order given by the
schedule. -/
def System.run (constructor : Constructor) (s : System) (schedule : List Nat) : System :=
  schedule.foldl (System.step constructor) s

/-- Every thread at the start of its call on the empty entry of `arena4`,
mutex free, counters 0. -/
def system0 : System :=
  ⟨arena4, ⟨⟨false⟩, Tag.empty⟩, fun _ => ⟨Pc.lockLoop, ⟨0⟩, 0⟩⟩

/-! ## Arithmetic of the tag codec -/

theorem REF_TAG_MASK_eq : REF_TAG_MASK = 0xFFFFFFFE := by decide

theorem and_ref_tag_mask (x : Nat) : x &&& 0xFFFFFFFE = x % 4294967296 / 2 * 2 := by
  apply Nat.eq_of_testBit_eq
  intro i
  have hm : (0xFFFFFFFE : Nat) = (2 ^ 31 - 1) <<< 1 := by decide
  have hr : x % 4294967296 / 2 * 2 = ((x % 2 ^ 32) >>> 1) <<< 1 := by
    rw [Nat.shiftLeft_eq, Nat.shiftRight_eq_div_pow]; norm_num
  rw [Nat.testBit_and, hm, hr, Nat.testBit_shiftLeft, Nat.testBit_shiftLeft,
    Nat.testBit_shiftRight, Nat.testBit_two_pow_sub_one, Nat.testBit_mod_two_pow]
  rcases Nat.eq_zero_or_pos i with h | h
  · subst h; simp
  · have e : 1 + (i - 1) = i := by omega
    have h3 : 1 ≤ i := h
    rw [e]
    by_cases h1 : i < 32
    · have h2 : i - 1 < 31 := by omega
      simp [h1, h2, h3]
    · have h2 : ¬ (i - 1 < 31) := by omega
      simp [h1, h2]

theorem extractCommitIndex_eq (v : Int) :
    extractCommitIndex v = ((v / 4294967296) % 18446744073709551616).toNat := by
  unfold extractCommitIndex toSizeT COMMIT_INDEX_SHIFT
  rw [Int.shiftRight_eq_div_pow]
  norm_num

theorem toSizeT_toInt64 (n : Nat) : toSizeT (toInt64 n) = n % 18446744073709551616 := by
  unfold toSizeT toInt64
  split <;> omega

theorem or_ref_tag (x : Nat) (h : x % 2 = 0) : x ||| REF_TAG = x + 1 := by
  have h1 := Nat.mul_add_lt_is_or (i := 1) (b := 1) (by decide) (x / 2)
  have h2 : 2 ^ 1 * (x / 2) = x := by omega
  rw [h2] at h1
  exact h1.symm

theorem or_high (b g : Nat) (hb : b < 4294967296) :
    b ||| (g * 4294967296) = g * 4294967296 + b := by
  have h1 := Nat.mul_add_lt_is_or (i := 32) (b := b) (by simpa using hb) g
  rw [Nat.lor_comm, Nat.mul_comm g]
  simpa using h1.symm

/-- The word the tag constructor builds for an even offset below `2 ^ 32`:
the low 32 bits of the commit index in the upper half, the offset with the
present bit in the lower half. -/
theorem tag_data (c : SharedLazyTessellationCache) (offset gen : Nat)
    (hoff : offset < 4294967296) (heven : offset % 2 = 0) :
    (Tag.Tag c ((c.data + offset) % 18446744073709551616) gen).data =
      toInt64 (gen % 4294967296 * 4294967296 + offset + 1) := by
  have e1 : toSizeT (wrapInt64 (toInt64 ((c.data + offset) % 18446744073709551616)
      - toInt64 c.getDataPtr)) = offset := by
    unfold wrapInt64
    rw [toSizeT_toInt64]
    unfold toSizeT toInt64 SharedLazyTessellationCache.getDataPtr
    split <;> split <;> omega
  have e2 : toSizeT (wrapInt64 (toInt64 gen * 2 ^ COMMIT_INDEX_SHIFT)) =
      gen % 4294967296 * 4294967296 := by
    unfold wrapInt64
    rw [toSizeT_toInt64]
    unfold toSizeT toInt64 COMMIT_INDEX_SHIFT
    norm_num
    split <;> omega
  unfold Tag.Tag
  simp only [e1, e2, toSizeT_toInt64, or_ref_tag offset heven]
  have h3 : (offset + 1) % 18446744073709551616 = offset + 1 := by omega
  rw [h3, or_high _ _ (by omega), Nat.add_assoc]

/-- The commit index read back from a tag word: the stored 32 bits, sign
extended to 64 bits. -/
theorem extractCommitIndex_toInt64 (g offset : Nat) (hg : g < 4294967296)
    (hoff : offset < 4294967296) (heven : offset % 2 = 0) :
    extractCommitIndex (toInt64 (g * 4294967296 + offset + 1)) =
      if g < 2147483648 then g else g + 18446744069414584320 := by
  rw [extractCommitIndex_eq]
  unfold toInt64
  split_ifs <;> omega

theorem offset_toInt64 (g offset : Nat) (_hg : g < 4294967296)
    (hoff : offset < 4294967296) (heven : offset % 2 = 0) :
    toSizeT (toInt64 (g * 4294967296 + offset + 1)) &&& 0xFFFFFFFE = offset := by
  rw [toSizeT_toInt64, and_ref_tag_mask]
  omega

theorem toInt64_ne_zero (g offset : Nat) (heven : offset % 2 = 0) :
    toInt64 (g * 4294967296 + offset + 1) ≠ 0 := by
  intro h
  unfold toInt64 at h
  split_ifs at h <;> omega

/-- Unfolded form of `lookup(volatile Tag*)`. -/
theorem lookup_eq (c : SharedLazyTessellationCache) (tag : Tag) :
    c.lookup tag =
      if tag.data = 0 then nullptr
      else if (extractCommitIndex tag.data + 7) % 18446744073709551616 ≥ c.index then
        (c.data + (toSizeT tag.data &&& 0xFFFFFFFE)) % 18446744073709551616
      else nullptr := by
  unfold SharedLazyTessellationCache.lookup SharedLazyTessellationCache.validCacheIndex
    SharedLazyTessellationCache.getDataPtr NUM_CACHE_SEGMENTS
  rw [REF_TAG_MASK_eq]
  by_cases h : tag.data = 0
  · simp [h]
  · simp only [h, ne_eq, not_false_eq_true, if_true, if_false, decide_eq_true_eq]
    rw [Nat.add_comm c.data]

/-! ## Tag lookup -/

/-- C1 (as amended): for every tag word, arena base and current generation
`G`, with `offset` the word masked by `0xFFFFFFFE` and `gen` the commit index
extracted from it (the sign-extended upper half), `lookup(tag)` returns
`nullptr` (MISS) when the word is zero; otherwise it returns `nullptr` when
`gen + 7 < G`, and it returns `base + offset` when `gen + 7 >= G`, provided
neither `gen + 7` nor `base + offset` wraps around `2 ^ 64`. -/
theorem C1_lookup_tag (c : SharedLazyTessellationCache) (tag : Tag) :
    (tag.data = 0 → c.lookup tag = nullptr) ∧
      (tag.data ≠ 0 → extractCommitIndex tag.data + 7 < c.index → c.lookup tag = nullptr) ∧
      (tag.data ≠ 0 → extractCommitIndex tag.data + 7 ≥ c.index →
        extractCommitIndex tag.data + 7 < 18446744073709551616 →
        c.data + (toSizeT tag.data &&& 0xFFFFFFFE) < 18446744073709551616 →
        c.lookup tag = c.data + (toSizeT tag.data &&& 0xFFFFFFFE)) := by
  rw [lookup_eq]
  refine ⟨?_, ?_, ?_⟩
  · intro h
    rw [if_pos h]
  · intro h hlt
    rw [if_neg h, if_neg]
    have := Nat.mod_le (extractCommitIndex tag.data + 7) 18446744073709551616
    omega
  · intro h hge hgen hsum
    rw [if_neg h, if_pos, Nat.mod_eq_of_lt hsum]
    rw [Nat.mod_eq_of_lt hgen]
    exact hge

/-- The tag word `0x1_00000081` (offset 128, generation 1) on `arena4`: a hit
at generation 1, where `lookup` returns `4096 + 128`; a miss at generation 9;
and the zero word is a miss. -/
theorem C1_lookup_tag_witness :
    (⟨4294967425⟩ : Tag).data ≠ 0 ∧
      extractCommitIndex 4294967425 = 1 ∧
      toSizeT 4294967425 &&& 0xFFFFFFFE = 128 ∧
      SharedLazyTessellationCache.lookup { arena4 with index := 9 } ⟨4294967425⟩ = nullptr ∧
      arena4.lookup ⟨0⟩ = nullptr ∧
      arena4.lookup ⟨4294967425⟩ =
        arena4.data + (toSizeT (⟨4294967425⟩ : Tag).data &&& 0xFFFFFFFE) :=
  ⟨by decide, by decide, by decide, by decide, by decide,
    (C1_lookup_tag arena4 ⟨4294967425⟩).2.2 (by decide) (by decide) (by decide) (by decide)⟩

/-- Where the claim as written fails.  The tag word `-1` decodes to generation
`2 ^ 64 - 1` and offset `0xFFFFFFFE`; at generation 10 the integer
`gen + 7` is at least 10, but the `size_t` sum wraps to 6 and `lookup`
returns `nullptr`, not `base + offset`.  The same happens to the tag built by
`Tag(4224, 2 ^ 32 - 1)` read at generation `2 ^ 32 - 1`.  With the base 64
bytes below `2 ^ 64`, the valid tag `0x1_00000041` (offset 64, generation 1)
gives the pointer sum `2 ^ 64`, which `lookup` returns as `nullptr`. -/
theorem C1_counterexample_sums_wrap :
    ((⟨-1⟩ : Tag).data ≠ 0 ∧
      extractCommitIndex (-1) = 18446744073709551615 ∧
      toSizeT (-1) &&& 0xFFFFFFFE = 4294967294 ∧
      extractCommitIndex (-1) + 7 ≥
        ({ arena4 with index := 10 } : SharedLazyTessellationCache).index ∧
      SharedLazyTessellationCache.lookup { arena4 with index := 10 } ⟨-1⟩ = nullptr ∧
      nullptr ≠ 4096 + 4294967294) ∧
    ((Tag.Tag arena4 4224 4294967295).data = -4294967167 ∧
      extractCommitIndex (-4294967167) = 18446744073709551615 ∧
      toSizeT (-4294967167) &&& 0xFFFFFFFE = 128 ∧
      SharedLazyTessellationCache.lookup { arena4 with index := 4294967295 }
        (Tag.Tag arena4 4224 4294967295) = nullptr) ∧
    ((⟨4294967361⟩ : Tag).data ≠ 0 ∧
      extractCommitIndex 4294967361 = 1 ∧
      toSizeT 4294967361 &&& 0xFFFFFFFE = 64 ∧
      SharedLazyTessellationCache.lookup
        { arena4 with data := 18446744073709551552 } ⟨4294967361⟩ = nullptr ∧
      nullptr ≠ 18446744073709551552 + 64) := by
  decide

/-- C2 (as amended): for every even offset below `2 ^ 32` and every generation
in `[1, 2 ^ 31)`, the tag built by `Tag(base + offset, gen)` decodes to exactly
`(offset, gen)`: masking with `0xFFFFFFFE` gives the offset and
`extractCommitIndex` gives the generation. -/
theorem C2_tag_roundtrip (c : SharedLazyTessellationCache) (offset gen : Nat)
    (hoff : offset < 4294967296) (heven : offset &&& 1 = 0)
    (_hgen1 : 1 ≤ gen) (hgen : gen < 2147483648) :
    toSizeT (Tag.Tag c ((c.data + offset) % 18446744073709551616) gen).data &&& 0xFFFFFFFE
        = offset ∧
      extractCommitIndex (Tag.Tag c ((c.data + offset) % 18446744073709551616) gen).data
        = gen := by
  have hev : offset % 2 = 0 := by rw [← Nat.and_one_is_mod]; exact heven
  have hg : gen % 4294967296 = gen := by omega
  rw [tag_data c offset gen hoff hev, hg]
  refine ⟨offset_toInt64 gen offset (by omega) hoff hev, ?_⟩
  rw [extractCommitIndex_toInt64 gen offset (by omega) hoff hev, if_pos hgen]

/-- C2, at offset 128 and generation 1 in the 4-block arena. -/
theorem C2_tag_roundtrip_witness :
    (128 < 4294967296 ∧ 128 &&& 1 = 0 ∧ 1 ≤ 1 ∧ 1 < 2147483648) ∧
      (toSizeT (Tag.Tag arena4 ((arena4.data + 128) % 18446744073709551616) 1).data
          &&& 0xFFFFFFFE = 128 ∧
        extractCommitIndex
          (Tag.Tag arena4 ((arena4.data + 128) % 18446744073709551616) 1).data = 1) :=
  ⟨by decide, C2_tag_roundtrip arena4 128 1 (by decide) (by decide) (by decide) (by decide)⟩

/-- C2 as stated fails at generation `2 ^ 31`, which lies in `[1, 2 ^ 32)`:
the shift puts bit 31 of the generation into the sign bit of the `int64_t`
word, and the arithmetic right shift of `extractCommitIndex` returns
`0xFFFFFFFF80000000` instead of `0x80000000`. -/
theorem C2_counterexample_sign_bit :
    (128 < 4294967296 ∧ 128 &&& 1 = 0 ∧ 1 ≤ 2147483648 ∧ 2147483648 < 4294967296) ∧
      extractCommitIndex (Tag.Tag arena4 (4096 + 128) 2147483648).data
        = 18446744071562067968 ∧
      extractCommitIndex (Tag.Tag arena4 (4096 + 128) 2147483648).data ≠ 2147483648 := by
  decide

/-- C3 (as amended): a tag published at generation `g < 2 ^ 31` (the
generation of the cache `c0` that built it, for an even offset below `2 ^ 32`)
and read in a later state `c` of the same arena is still served by `lookup`
while the current generation is at most `g + 7`, and is rejected (MISS) once
resets have advanced the current generation to `g + 8` or beyond. -/
theorem C3_stale_tag_rejected_after_window (c0 c : SharedLazyTessellationCache) (offset : Nat)
    (hoff : offset < 4294967296) (heven : offset &&& 1 = 0) (hg : c0.index < 2147483648)
    (hdata : c.data = c0.data) :
    (c.index ≤ c0.index + 7 →
        c.lookup (Tag.Tag c0 ((c0.data + offset) % 18446744073709551616) c0.getCurrentIndex)
          = (c0.data + offset) % 18446744073709551616) ∧
      (c0.index + 8 ≤ c.index →
        c.lookup (Tag.Tag c0 ((c0.data + offset) % 18446744073709551616) c0.getCurrentIndex)
          = nullptr) := by
  have hev : offset % 2 = 0 := by rw [← Nat.and_one_is_mod]; exact heven
  have hgm : c0.index % 4294967296 = c0.index := by omega
  have hd := tag_data c0 offset c0.index hoff hev
  rw [hgm] at hd
  have hne := toInt64_ne_zero c0.index offset hev
  have hx := extractCommitIndex_toInt64 c0.index offset (by omega) hoff hev
  rw [if_pos hg] at hx
  have ho := offset_toInt64 c0.index offset (by omega) hoff hev
  unfold SharedLazyTessellationCache.getCurrentIndex
  rw [lookup_eq, hd, if_neg hne, hx, ho, hdata]
  have e : (c0.index + 7) % 18446744073709551616 = c0.index + 7 := by omega
  rw [e]
  constructor
  · intro h; rw [if_pos h]
  · intro h; rw [if_neg (by omega)]

/-- C3, for the tag published at generation 1 at offset 128 of the 4-block
arena: still served at generation 8, rejected at generation 9. -/
theorem C3_stale_tag_rejected_after_window_witness :
    (128 < 4294967296 ∧ 128 &&& 1 = 0 ∧ arena4.index < 2147483648 ∧ 8 ≤ arena4.index + 7 ∧
        arena4.index + 8 ≤ 9) ∧
      SharedLazyTessellationCache.lookup { arena4 with index := 8 }
        (Tag.Tag arena4 ((arena4.data + 128) % 18446744073709551616) arena4.getCurrentIndex)
          = (arena4.data + 128) % 18446744073709551616 ∧
      SharedLazyTessellationCache.lookup { arena4 with index := 9 }
        (Tag.Tag arena4 ((arena4.data + 128) % 18446744073709551616) arena4.getCurrentIndex)
          = nullptr :=
  ⟨by decide,
    (C3_stale_tag_rejected_after_window arena4 { arena4 with index := 8 } 128
      (by decide) (by decide) (by decide) rfl).1 (by decide),
    (C3_stale_tag_rejected_after_window arena4 { arena4 with index := 9 } 128
      (by decide) (by decide) (by decide) rfl).2 (by decide)⟩

/-- C3 as stated fails: the tag published at generation 1 (offset 128 of the
4-block arena) is read after one reset, at generation 2 with the allocator
rewound to block 0, and `lookup` still returns the pointer `4096 + 128`. -/
theorem C3_counterexample_valid_after_one_reset :
    SharedLazyTessellationCache.lookup { arena4 with index := 1 + 1, next_block := 0 }
        (Tag.Tag arena4 (4096 + 128) 1) = 4096 + 128 ∧
      SharedLazyTessellationCache.lookup { arena4 with index := 1 + 1, next_block := 0 }
        (Tag.Tag arena4 (4096 + 128) 1) ≠ nullptr := by
  decide

/-! ## Bump allocator -/

/-- C4 (as amended): for every allocator state and block count `n` whose sum
`next_block + n` does not wrap, `alloc(n)` reports EXHAUSTED (`(size_t)-1`) if
and only if `next_block + n >= switch_block_threshold`; otherwise it returns
the value `next_block` had before the call; in both cases `next_block`
afterwards is that value plus `n`. -/
theorem C4_alloc_exhausted_iff (c : SharedLazyTessellationCache) (n : Nat)
    (hsum : c.next_block + n < 18446744073709551616)
    (hthr : c.switch_block_threshold < 18446744073709551616) :
    ((c.alloc n).1 = SIZE_T_MINUS_ONE ↔ c.next_block + n ≥ c.switch_block_threshold) ∧
      (c.next_block + n < c.switch_block_threshold → (c.alloc n).1 = c.next_block) ∧
      (c.alloc n).2.next_block = c.next_block + n := by
  unfold SharedLazyTessellationCache.alloc AtomicCounter.add SIZE_T_MINUS_ONE
  have e : (c.next_block + n) % 18446744073709551616 = c.next_block + n := by omega
  simp only [e]
  by_cases h : c.next_block + n ≥ c.switch_block_threshold
  · simp [h]
  · simp only [h, if_false, iff_false, and_true]
    constructor
    · omega
    · intro _; trivial

/-- C4, in the 4-block arena with `next_block = 2`: `alloc(2)` reports
EXHAUSTED and leaves `next_block = 4`, while `alloc(1)` is the largest request
that is served there. -/
theorem C4_alloc_exhausted_iff_witness :
    (2 + 2 < 18446744073709551616 ∧ 4 < 18446744073709551616) ∧
      ((({ arena4 with next_block := 2 } : SharedLazyTessellationCache).alloc 2).1
          = SIZE_T_MINUS_ONE ↔ 2 + 2 ≥ 4) ∧
      (2 + 2 < 4 →
        (({ arena4 with next_block := 2 } : SharedLazyTessellationCache).alloc 2).1 = 2) ∧
      (({ arena4 with next_block := 2 } : SharedLazyTessellationCache).alloc 2).2.next_block
        = 2 + 2 ∧
      (({ arena4 with next_block := 2 } : SharedLazyTessellationCache).alloc 1).1 = 2 :=
  ⟨by decide,
    (C4_alloc_exhausted_iff { arena4 with next_block := 2 } 2 (by decide) (by decide)).1,
    (C4_alloc_exhausted_iff { arena4 with next_block := 2 } 2 (by decide) (by decide)).2.1,
    (C4_alloc_exhausted_iff { arena4 with next_block := 2 } 2 (by decide) (by decide)).2.2,
    (C4_alloc_exhausted_iff { arena4 with next_block := 2 } 1 (by decide) (by decide)).2.1
      (by decide)⟩

/-- C4 as stated fails in the 4-block arena with `next_block = 2`: the request
`alloc(2)` does not exceed the limit (`2 + 2 > 4` is false), yet the call
reports EXHAUSTED instead of returning block 2. -/
theorem C4_counterexample_exact_fit :
    ¬ (2 + 2 > 4) ∧
      (({ arena4 with next_block := 2 } : SharedLazyTessellationCache).alloc 2).1
        = SIZE_T_MINUS_ONE ∧
      (({ arena4 with next_block := 2 } : SharedLazyTessellationCache).alloc 2).1 ≠ 2 := by
  decide

/-- Without wrap-around a block index handed out by `alloc` leaves the whole
range below the threshold. -/
theorem alloc_in_bounds (c : SharedLazyTessellationCache) (n : Nat)
    (hsum : c.next_block + n < 18446744073709551616)
    (h : (c.alloc n).1 ≠ SIZE_T_MINUS_ONE) :
    (c.alloc n).1 + n < c.switch_block_threshold := by
  unfold SharedLazyTessellationCache.alloc AtomicCounter.add at h ⊢
  have e : (c.next_block + n) % 18446744073709551616 = c.next_block + n := by omega
  simp only [e] at h ⊢
  by_cases hc : c.next_block + n ≥ c.switch_block_threshold
  · simp [hc] at h
  · simp only [hc, if_false]
    omega

/-- C5, the failing input: in the 4-block arena with `next_block = 1`, the
request `alloc(2 ^ 64 - 1)` makes `index + blocks` wrap to `0`, the test
against the threshold passes, and block 1 is handed out although
`1 + (2 ^ 64 - 1)` is far above the limit of 4 blocks. -/
theorem C5_alloc_wraps_past_threshold :
    (({ arena4 with next_block := 1 } : SharedLazyTessellationCache).alloc
        18446744073709551615).1 = 1 ∧
      1 ≠ SIZE_T_MINUS_ONE ∧
      ¬ (1 + 18446744073709551615 ≤ 4) := by
  decide

/-! ## Single-flight construction -/

/-- A tag published at the current generation for an arena pointer is served
by `lookup`, as long as the generation leaves room for the window in 32 bits. -/
theorem lookup_fresh_tag (c : SharedLazyTessellationCache) (p : Nat)
    (hG : c.index + 7 < 4294967296) (hbase : c.data ≤ p) (hp : p < 18446744073709551616)
    (hoff : p - c.data ≤ 0xFFFFFFFF) (heven : (p - c.data) &&& 1 = 0) :
    c.lookup (Tag.Tag c p c.index) = p := by
  have hev : (p - c.data) % 2 = 0 := by rw [← Nat.and_one_is_mod]; exact heven
  have hpe : p = (c.data + (p - c.data)) % 18446744073709551616 := by omega
  have hgm : c.index % 4294967296 = c.index := by omega
  have hd := tag_data c (p - c.data) c.index (by omega) hev
  rw [← hpe, hgm] at hd
  have hne := toInt64_ne_zero c.index (p - c.data) hev
  have hx := extractCommitIndex_toInt64 c.index (p - c.data) (by omega) (by omega) hev
  have ho := offset_toInt64 c.index (p - c.data) (by omega) (by omega) hev
  rw [lookup_eq, hd, if_neg hne, hx, ho]
  split_ifs <;> omega

theorem lockThreadLoop_zero (fuel : Nat) :
    SharedLazyTessellationCache.lockThreadLoop (fuel + 1) ⟨0⟩ = some ⟨1⟩ := by
  rfl

/-- The hit path of `lookup(entry, constructor)`: the reader lock is taken and
the pointer stored in the tag is returned at once. -/
theorem lookup_or_build_hit (constructor : Constructor) (fuel : Nat)
    (c : SharedLazyTessellationCache) (t_state t1 : ThreadWorkState) (entry : CacheEntry)
    (runs : Nat)
    (hlock : SharedLazyTessellationCache.lockThreadLoop (fuel + 1) t_state = some t1)
    (hhit : c.lookup entry.tag ≠ nullptr) :
    SharedLazyTessellationCache.lookup_or_build constructor (fuel + 1) c t_state entry runs =
      some ⟨c.lookup entry.tag, c, t1, entry, runs⟩ := by
  rw [SharedLazyTessellationCache.lookup_or_build, hlock]
  simp only
  rw [if_pos hhit]

/-- The build path of `lookup(entry, constructor)`: on a miss with the entry
mutex free and the tag not valid, the constructor runs once and its result is
published under the generation read after it returned. -/
theorem lookup_or_build_build (constructor : Constructor) (fuel : Nat)
    (c c1 : SharedLazyTessellationCache) (t_state t1 t2 : ThreadWorkState) (entry : CacheEntry)
    (runs ret : Nat)
    (hlock : SharedLazyTessellationCache.lockThreadLoop (fuel + 1) t_state = some t1)
    (hmiss : c.lookup entry.tag = nullptr)
    (hfree : entry.mutex.writeLocked = false)
    (hinvalid : c.validTag entry.tag = false)
    (hctor : constructor c t1 = some (ret, c1, t2)) :
    SharedLazyTessellationCache.lookup_or_build constructor (fuel + 1) c t_state entry runs =
      some ⟨ret, c1, t2, ⟨⟨false⟩, Tag.Tag c1 ret c1.getCurrentIndex⟩, runs + 1⟩ := by
  rw [SharedLazyTessellationCache.lookup_or_build, hlock]
  simp only [hmiss, ne_eq, not_true_eq_false, if_false, RWMutex.try_write_lock, hfree,
    hinvalid, Bool.not_false, if_true, hctor, RWMutex.write_unlock]
  rfl

/-- With no other thread, `lockThreadLoop` entered with the counter already at
1 reads the returned 1 as a reset in progress, undoes its increment and waits
for the counter to drop to 0, which nobody does: it never returns. -/
theorem lockThreadLoop_held_never_returns (fuel : Nat) :
    SharedLazyTessellationCache.lockThreadLoop fuel ⟨1⟩ = none := by
  cases fuel with
  | zero => rfl
  | succ k => rfl

/-- A call of `lookup(entry, constructor)` made while the thread still holds
the reader lock of an earlier call (counter 1) and no other thread runs never
returns. -/
theorem lookup_or_build_held_never_returns (constructor : Constructor) (fuel : Nat)
    (c : SharedLazyTessellationCache) (entry : CacheEntry) (runs : Nat) :
    SharedLazyTessellationCache.lookup_or_build constructor fuel c ⟨1⟩ entry runs = none := by
  cases fuel with
  | zero => rfl
  | succ k =>
    rw [SharedLazyTessellationCache.lookup_or_build, lockThreadLoop_held_never_returns]

/-- C6 (as amended): in a run with no other thread and no reset, for every
current generation `G <= 2 ^ 32 - 8`, every entry whose tag is empty and whose
mutex is free, and every constructor returning an arena pointer `p` (base
non-null, `p - base` even and at most `0xFFFFFFFF`), with the lock counter of
the thread at 0 when each call starts: the first `lookup(entry, constructor)`
returns `p` after running the constructor exactly once, and, the caller having
left the cache (`unlockThread`), a second call on the same entry returns the
same `p` without running the constructor.  Any positive fuel is enough for
each call. -/
theorem C6_cold_lookup_then_hit (constructor : Constructor) (c : SharedLazyTessellationCache)
    (t_state : ThreadWorkState) (entry : CacheEntry) (p fuel1 fuel2 : Nat)
    (hG : c.index + 7 < 4294967296)
    (hbase : 0 < c.data) (hle : c.data ≤ p) (hp : p < 18446744073709551616)
    (hoff : p - c.data ≤ 0xFFFFFFFF) (heven : (p - c.data) &&& 1 = 0)
    (hempty : entry.tag = Tag.empty) (hfree : entry.mutex.writeLocked = false)
    (hcnt : t_state.counter = 0)
    (hctor : ∀ c1 t1, ∃ c2, constructor c1 t1 = some (p, c2, t1) ∧
      c2.index = c1.index ∧ c2.data = c1.data) :
    (SharedLazyTessellationCache.lookup_or_build constructor (fuel1 + 1) c t_state entry 0).bind
      (fun r1 =>
        (SharedLazyTessellationCache.lookup_or_build constructor (fuel2 + 1) r1.cache
            (SharedLazyTessellationCache.unlockThread r1.t_state).2 r1.entry 0).map
          (fun r2 => (r1.ret, r1.constructorRuns, r2.ret, r2.constructorRuns)))
      = some (p, 1, p, 0) := by
  obtain ⟨cnt⟩ := t_state
  simp only at hcnt
  subst hcnt
  obtain ⟨c2, hc, hi, hdata⟩ := hctor c ⟨1⟩
  have hl : c2.lookup (Tag.Tag c2 p c2.getCurrentIndex) = p :=
    lookup_fresh_tag c2 p (by rw [hi]; exact hG) (by rw [hdata]; exact hle) hp
      (by rw [hdata]; exact hoff) (by rw [hdata]; exact heven)
  have hp0 : p ≠ nullptr := by unfold nullptr; omega
  have h1 := lookup_or_build_build constructor fuel1 c c2 ⟨0⟩ ⟨1⟩ ⟨1⟩ entry 0 p
    (lockThreadLoop_zero fuel1) (by rw [hempty]; rfl) hfree (by rw [hempty]; rfl) hc
  have h2 := lookup_or_build_hit constructor fuel2 c2 ⟨0⟩ ⟨1⟩
    ⟨⟨false⟩, Tag.Tag c2 p c2.getCurrentIndex⟩ 0 (lockThreadLoop_zero fuel2)
    (by rw [hl]; exact hp0)
  rw [hl] at h2
  have hu : (SharedLazyTessellationCache.unlockThread ⟨1⟩).2 = ⟨0⟩ := rfl
  rw [h1, Option.some_bind]
  show Option.map _ (SharedLazyTessellationCache.lookup_or_build constructor (fuel2 + 1) c2
    (SharedLazyTessellationCache.unlockThread ⟨1⟩).2 ⟨⟨false⟩, Tag.Tag c2 p c2.getCurrentIndex⟩ 0) = _
  rw [hu, h2]
  rfl

/-- C6, in the 4-block arena at generation 1 with the constructor that returns
the block at offset 128. -/
theorem C6_cold_lookup_then_hit_witness :
    (arena4.index + 7 < 4294967296 ∧ 0 < arena4.data ∧ arena4.data ≤ 4096 + 128 ∧
        4096 + 128 - arena4.data ≤ 0xFFFFFFFF ∧ (4096 + 128 - arena4.data) &&& 1 = 0) ∧
      (SharedLazyTessellationCache.lookup_or_build constructorAt128 1 arena4 ⟨0⟩
          ⟨⟨false⟩, Tag.empty⟩ 0).bind
        (fun r1 =>
          (SharedLazyTessellationCache.lookup_or_build constructorAt128 1 r1.cache
              (SharedLazyTessellationCache.unlockThread r1.t_state).2 r1.entry 0).map
            (fun r2 => (r1.ret, r1.constructorRuns, r2.ret, r2.constructorRuns)))
        = some (4096 + 128, 1, 4096 + 128, 0) :=
  ⟨by decide,
    C6_cold_lookup_then_hit constructorAt128 arena4 ⟨0⟩ ⟨⟨false⟩, Tag.empty⟩ (4096 + 128) 0 0
      (by decide) (by decide) (by decide) (by decide) (by decide) (by decide) rfl rfl rfl
      (fun c1 _ => ⟨c1, rfl, rfl, rfl⟩)⟩

/-- C6 as stated fails at generation `G = 2 ^ 32`: the tag keeps only the low
32 bits of the generation, so the tag published by the first call reads back
as generation 0, the second call misses, and the constructor runs a second
time (the second call reports one constructor run instead of none). -/
theorem C6_counterexample_generation_truncated :
    (SharedLazyTessellationCache.lookup_or_build constructorAt128 1
        { arena4 with index := 4294967296 } ⟨0⟩ ⟨⟨false⟩, Tag.empty⟩ 0).bind
      (fun r1 =>
        (SharedLazyTessellationCache.lookup_or_build constructorAt128 1 r1.cache
            (SharedLazyTessellationCache.unlockThread r1.t_state).2 r1.entry 0).map
          (fun r2 => (r1.ret, r1.constructorRuns, r2.ret, r2.constructorRuns)))
      = some (4096 + 128, 1, 4096 + 128, 1) := by
  decide

/-! ## Validity window -/

/-- C7 (as amended): for every current generation `G` with `G + 7 < 2 ^ 64`
and every `M < G`, `validCacheIndex(G - M)` is true when `M <= 7` and false
when `M > 7`; and for every `g` with `g + 7 < 2 ^ 64`, `validCacheIndex(g)`
holds exactly when `g + 7 >= G`. -/
theorem C7_validity_window (c : SharedLazyTessellationCache) (M : Nat)
    (hM : M < c.index) (hG : c.index + 7 < 18446744073709551616) :
    (M ≤ NUM_CACHE_SEGMENTS - 1 → c.validCacheIndex (c.index - M) = true) ∧
      (NUM_CACHE_SEGMENTS - 1 < M → c.validCacheIndex (c.index - M) = false) ∧
      (∀ g, g + 7 < 18446744073709551616 → (c.validCacheIndex g = true ↔ g + 7 ≥ c.index)) := by
  unfold SharedLazyTessellationCache.validCacheIndex NUM_CACHE_SEGMENTS
  simp only [decide_eq_true_eq, decide_eq_false_iff_not]
  refine ⟨fun h => ?_, fun h => ?_, fun g hg => ?_⟩
  · omega
  · omega
  · have e : (g + (8 - 1)) % 18446744073709551616 = g + 7 := by omega
    rw [e]

/-- C7, at generation 10: the tag encoded 7 resets ago (generation 3) is
valid, the one encoded 8 resets ago (generation 2) is not. -/
theorem C7_validity_window_witness :
    (7 < 10 ∧ 10 + 7 < 18446744073709551616) ∧
      SharedLazyTessellationCache.validCacheIndex { arena4 with index := 10 } (10 - 7) = true ∧
      SharedLazyTessellationCache.validCacheIndex { arena4 with index := 10 } (10 - 8) = false :=
  ⟨by decide,
    (C7_validity_window { arena4 with index := 10 } 7 (by decide) (by decide)).1 (by decide),
    (C7_validity_window { arena4 with index := 10 } 8 (by decide) (by decide)).2.1 (by decide)⟩

/-- C7 as stated fails at the top of the 64-bit range: at generation
`G = 2 ^ 64 - 1` and `M = 0` (so `M < G` and `M <= 7`) the sum `G + 7` wraps
to 6 and `validCacheIndex(G - M)` is false. -/
theorem C7_counterexample_wrap :
    (0 < 18446744073709551615 ∧ 0 ≤ 7) ∧
      SharedLazyTessellationCache.validCacheIndex
        { arena4 with index := 18446744073709551615 } (18446744073709551615 - 0) = false := by
  decide

/-! ## Byte-oriented allocation -/

/-- The address computed by `getBlockPtr`: `base + block_index * 64`, as a
64-bit pointer. -/
theorem getBlockPtr_eq (c : SharedLazyTessellationCache) (r : Nat) :
    c.getBlockPtr r = (c.data + r * 64) % 18446744073709551616 := by
  unfold SharedLazyTessellationCache.getBlockPtr
  omega

/-- C8, the failing input: `malloc(2 ^ 64 - 1)` in the 4-block arena.  The sum
`bytes + 63` wraps to 62, so 0 blocks are requested instead of
`ceil(bytes / 64) = 2 ^ 58`; the call returns the arena base at once and
leaves `next_block` where it was. -/
theorem C8_malloc_rounding_wraps :
    SharedLazyTessellationCache.malloc 1 arena4 ⟨1⟩ 18446744073709551615
        = some (4096, arena4, ⟨1⟩) ∧
      (18446744073709551615 + 63) % 18446744073709551616 / 64 = 0 ∧
      (18446744073709551615 + 63) / 64 = 288230376151711744 := by
  decide

/-! ## Termination of `malloc` -/

/-- A request of at least `switch_block_threshold` blocks is refused by every
`alloc`, before and after every reset: `malloc` never returns. -/
theorem malloc_none_of_threshold_le (fuel : Nat) (c : SharedLazyTessellationCache)
    (t_state : ThreadWorkState) (bytes : Nat)
    (hb : c.switch_block_threshold ≤ (bytes + 63) % 18446744073709551616 / 64)
    (hc : c.switch_block_threshold ≤
      (c.next_block + (bytes + 63) % 18446744073709551616 / 64) % 18446744073709551616) :
    SharedLazyTessellationCache.malloc fuel c t_state bytes = none := by
  induction fuel generalizing c t_state with
  | zero => rfl
  | succ k ih =>
    unfold SharedLazyTessellationCache.malloc
    have ha : c.alloc ((bytes + 63) % 18446744073709551616 / 64) =
        (SIZE_T_MINUS_ONE, { c with next_block :=
          (c.next_block + (bytes + 63) % 18446744073709551616 / 64)
            % 18446744073709551616 }) := by
      unfold SharedLazyTessellationCache.alloc AtomicCounter.add
      simp only
      rw [if_pos hc]
    simp only [ha, if_true]
    apply ih
    · unfold SharedLazyTessellationCache.resetCache SharedLazyTessellationCache.addCurrentIndex
      simp only
      rw [if_pos hc]
      exact hb
    · unfold SharedLazyTessellationCache.resetCache SharedLazyTessellationCache.addCurrentIndex
      simp only
      rw [if_pos hc]
      simp only
      omega

/-- A request of fewer than `switch_block_threshold` blocks is served at the
latest on the second attempt, after one reset. -/
theorem malloc_some_of_lt_threshold (c : SharedLazyTessellationCache)
    (t_state : ThreadWorkState) (bytes : Nat)
    (hthr : c.switch_block_threshold < 18446744073709551616)
    (hsum : c.next_block + (bytes + 63) % 18446744073709551616 / 64 < 18446744073709551616)
    (hb : (bytes + 63) % 18446744073709551616 / 64 < c.switch_block_threshold) :
    (SharedLazyTessellationCache.malloc 2 c t_state bytes).isSome = true := by
  unfold SharedLazyTessellationCache.malloc SharedLazyTessellationCache.malloc
  unfold SharedLazyTessellationCache.alloc AtomicCounter.add
    SharedLazyTessellationCache.resetCache SharedLazyTessellationCache.addCurrentIndex
    SIZE_T_MINUS_ONE
  simp only
  have e : (c.next_block + (bytes + 63) % 18446744073709551616 / 64) % 18446744073709551616
      = c.next_block + (bytes + 63) % 18446744073709551616 / 64 := by omega
  rw [e]
  by_cases h : c.next_block + (bytes + 63) % 18446744073709551616 / 64
      ≥ c.switch_block_threshold
  · simp only [h, if_true, ge_iff_le]
    have e2 : (0 + (bytes + 63) % 18446744073709551616 / 64) % 18446744073709551616
      = (bytes + 63) % 18446744073709551616 / 64 := by omega
    rw [e2]
    have h3 : ¬ (c.switch_block_threshold ≤ (bytes + 63) % 18446744073709551616 / 64) := by
      omega
    simp [h3]
  · simp only [h, if_false]
    have h4 : c.next_block ≠ 18446744073709551615 := by omega
    simp [h4]

/-- C9 (as amended): with `resetCache` rewinding `next_block` to 0 and
advancing the generation, for every byte count with `bytes + 63 < 2 ^ 64` (and
an allocator state whose `next_block + blocks` does not wrap), `malloc(bytes)`
returns for some fuel if and only if `ceil(bytes / 64) < switch_block_threshold`,
that is `bytes + 64 <= switch_block_threshold * 64`. -/
theorem C9_malloc_terminates_iff (c : SharedLazyTessellationCache)
    (t_state : ThreadWorkState) (bytes : Nat)
    (hbytes : bytes + 63 < 18446744073709551616)
    (hthr : c.switch_block_threshold < 18446744073709551616)
    (hsum : c.next_block + (bytes + 63) / 64 < 18446744073709551616) :
    (∃ fuel, (SharedLazyTessellationCache.malloc fuel c t_state bytes).isSome = true) ↔
      bytes + 64 ≤ c.switch_block_threshold * 64 := by
  have e : (bytes + 63) % 18446744073709551616 = bytes + 63 := by omega
  constructor
  · rintro ⟨fuel, hf⟩
    by_contra hn
    rw [malloc_none_of_threshold_le fuel c t_state bytes (by rw [e]; omega)
      (by rw [e]; omega)] at hf
    simp at hf
  · intro h
    exact ⟨2, malloc_some_of_lt_threshold c t_state bytes hthr (by rw [e]; exact hsum)
      (by rw [e]; omega)⟩

/-- C9, in the fresh 4-block arena: a request of 192 bytes (3 blocks) returns. -/
theorem C9_malloc_terminates_iff_witness :
    (192 + 63 < 18446744073709551616 ∧ arena4.switch_block_threshold < 18446744073709551616 ∧
        arena4.next_block + (192 + 63) / 64 < 18446744073709551616) ∧
      ((∃ fuel, (SharedLazyTessellationCache.malloc fuel arena4 ⟨1⟩ 192).isSome = true) ↔
        192 + 64 ≤ arena4.switch_block_threshold * 64) :=
  ⟨by decide, C9_malloc_terminates_iff arena4 ⟨1⟩ 192 (by decide) (by decide) (by decide)⟩

/-- C9 as stated fails for a request of exactly `switch_block_threshold * 64`
bytes on the fresh 4-block arena: 256 bytes are 4 blocks, `alloc(4)` finds
`0 + 4 >= 4` after every reset, and `malloc(256)` returns for no fuel. -/
theorem C9_counterexample_exact_size :
    256 ≤ arena4.switch_block_threshold * 64 ∧ arena4.next_block = 0 ∧
      ¬ ∃ fuel, (SharedLazyTessellationCache.malloc fuel arena4 ⟨1⟩ 256).isSome = true := by
  refine ⟨by decide, rfl, ?_⟩
  rintro ⟨fuel, hf⟩
  rw [malloc_none_of_threshold_le fuel arena4 ⟨1⟩ 256 (by decide) (by decide)] at hf
  simp at hf

/-- C10 (as amended): `malloc` has no failure path.  For every byte count
larger than the arena (`bytes > switch_block_threshold * 64`, with
`bytes + 63 < 2 ^ 64` and no wrap of `next_block + blocks`), `malloc(bytes)`
returns nothing for any fuel: the reset-and-retry loop repeats forever. -/
theorem C10_malloc_oversize_never_returns (c : SharedLazyTessellationCache)
    (t_state : ThreadWorkState) (bytes fuel : Nat)
    (hbytes : bytes + 63 < 18446744073709551616)
    (hsum : c.next_block + (bytes + 63) / 64 < 18446744073709551616)
    (hover : bytes > c.switch_block_threshold * 64) :
    SharedLazyTessellationCache.malloc fuel c t_state bytes = none := by
  have e : (bytes + 63) % 18446744073709551616 = bytes + 63 := by omega
  exact malloc_none_of_threshold_le fuel c t_state bytes (by rw [e]; omega) (by rw [e]; omega)

/-- C10, for a request of one byte more than the 4-block arena, run with fuel 1000. -/
theorem C10_malloc_oversize_never_returns_witness :
    (257 + 63 < 18446744073709551616 ∧
        arena4.next_block + (257 + 63) / 64 < 18446744073709551616 ∧
        257 > arena4.switch_block_threshold * 64) ∧
      SharedLazyTessellationCache.malloc 1000 arena4 ⟨1⟩ 257 = none :=
  ⟨by decide,
    C10_malloc_oversize_never_returns arena4 ⟨1⟩ 257 1000 (by decide) (by decide) (by decide)⟩

/-- C10 as stated fails for `malloc(arena_size + 1)` on the 4-block arena:
257 bytes exceed the 256 bytes of the arena, and the call hands nothing back
to the caller (neither a pointer nor a failure) for any fuel. -/
theorem C10_counterexample_no_failure_surfaced :
    257 > arena4.switch_block_threshold * 64 ∧
      ¬ ∃ fuel, SharedLazyTessellationCache.malloc fuel arena4 ⟨1⟩ 257 ≠ none := by
  refine ⟨by decide, ?_⟩
  rintro ⟨fuel, hf⟩
  exact hf (malloc_none_of_threshold_le fuel arena4 ⟨1⟩ 257 (by decide) (by decide))

/-! ## Alignment -/

theorem getBlockPtr_aligned (c : SharedLazyTessellationCache) (r : Nat)
    (hbase : c.data % 64 = 0) : c.getBlockPtr r % 64 = 0 := by
  unfold SharedLazyTessellationCache.getBlockPtr
  omega

theorem alloc_data (c : SharedLazyTessellationCache) (n : Nat) :
    (c.alloc n).2.data = c.data ∧
      (c.alloc n).2.switch_block_threshold = c.switch_block_threshold := by
  unfold SharedLazyTessellationCache.alloc
  simp only
  split_ifs <;> exact ⟨rfl, rfl⟩

theorem resetCache_data (c : SharedLazyTessellationCache) :
    c.resetCache.data = c.data ∧
      c.resetCache.switch_block_threshold = c.switch_block_threshold := by
  unfold SharedLazyTessellationCache.resetCache SharedLazyTessellationCache.addCurrentIndex
  split_ifs <;> exact ⟨rfl, rfl⟩

/-- A pointer returned by `malloc` is `getBlockPtr` of some block index, taken
on the cache that `malloc` leaves behind, whose base is the base at entry. -/
theorem malloc_ptr (fuel : Nat) (c c1 : SharedLazyTessellationCache)
    (t_state t1 : ThreadWorkState) (bytes p : Nat)
    (h : SharedLazyTessellationCache.malloc fuel c t_state bytes = some (p, c1, t1)) :
    c1.data = c.data ∧ ∃ r, p = c1.getBlockPtr r := by
  induction fuel generalizing c t_state with
  | zero => simp [SharedLazyTessellationCache.malloc] at h
  | succ k ih =>
    unfold SharedLazyTessellationCache.malloc at h
    simp only at h
    split_ifs at h with hx
    · have := ih _ _ h
      rw [(resetCache_data _).1, (alloc_data _ _).1] at this
      exact this
    · simp only [Option.some.injEq, Prod.mk.injEq] at h
      obtain ⟨hp, hc, _⟩ := h
      subst hc
      exact ⟨(alloc_data _ _).1, _, hp.symm⟩

/-- C11: with a 64-byte aligned arena base, `getBlockPtr` is 64-byte aligned
for every block index, and so is every pointer that `malloc` returns, whatever
the fuel, the work state, the request and the resets on the way. -/
theorem C11_malloc_aligned (c : SharedLazyTessellationCache) (hbase : c.data % 64 = 0) :
    (∀ block_index, c.getBlockPtr block_index % 64 = 0) ∧
      (∀ fuel t_state bytes p c1 t1,
        SharedLazyTessellationCache.malloc fuel c t_state bytes = some (p, c1, t1) →
          p % 64 = 0) := by
  refine ⟨fun r => getBlockPtr_aligned c r hbase, ?_⟩
  intro fuel t_state bytes p c1 t1 h
  obtain ⟨hd, r, hp⟩ := malloc_ptr fuel c c1 t_state t1 bytes p h
  rw [hp]
  exact getBlockPtr_aligned c1 r (by rw [hd]; exact hbase)

/-- The arena at address 4096 is aligned; `malloc(128)` on it returns 4096. -/
theorem C11_malloc_aligned_witness :
    arena4.data % 64 = 0 ∧
      SharedLazyTessellationCache.malloc 1 arena4 ⟨1⟩ 128 =
        some (4096, { arena4 with next_block := 2 }, ⟨1⟩) ∧
      4096 % 64 = 0 :=
  ⟨by decide, by decide,
    (C11_malloc_aligned arena4 (by decide)).2 1 ⟨1⟩ 128 4096 { arena4 with next_block := 2 } ⟨1⟩
      (by decide)⟩

/-! ## The allocator between resets -/

/-- A served `alloc` leaves `next_block` below the threshold. -/
theorem alloc_served (c : SharedLazyTessellationCache) (n : Nat)
    (h : (c.alloc n).1 ≠ SIZE_T_MINUS_ONE) :
    (c.alloc n).2.next_block < c.switch_block_threshold ∧
      (c.alloc n).2.switch_block_threshold = c.switch_block_threshold := by
  unfold SharedLazyTessellationCache.alloc AtomicCounter.add at h ⊢
  simp only at h ⊢
  split_ifs at h ⊢ with hc
  · exact absurd rfl h
  · exact ⟨by simpa using hc, rfl⟩

/-- A refused `alloc` leaves `next_block` at or above the threshold: the
addition is not rolled back. -/
theorem alloc_exhausted (c : SharedLazyTessellationCache) (n : Nat)
    (hnb : c.next_block ≠ SIZE_T_MINUS_ONE)
    (h : (c.alloc n).1 = SIZE_T_MINUS_ONE) :
    (c.alloc n).2.next_block ≥ c.switch_block_threshold := by
  unfold SharedLazyTessellationCache.alloc AtomicCounter.add at h ⊢
  simp only at h ⊢
  split_ifs at h ⊢ with hc
  · exact hc
  · exact absurd h hnb

/-- C14 (as amended): starting from `next_block <= switch_block_threshold`,
after every sequence of `alloc` calls with no reset in between in which every
call was served (none returned `(size_t)-1`), `next_block` is still at most
`switch_block_threshold`. -/
theorem C14_alloc_invariant (c : SharedLazyTessellationCache) (ns : List Nat)
    (h0 : c.next_block ≤ c.switch_block_threshold)
    (hserved : ∀ r ∈ (c.allocAll ns).1, r ≠ SIZE_T_MINUS_ONE) :
    (c.allocAll ns).2.next_block ≤ (c.allocAll ns).2.switch_block_threshold := by
  induction ns generalizing c with
  | nil => exact h0
  | cons n ns ih =>
    simp only [SharedLazyTessellationCache.allocAll] at hserved ⊢
    have h1 : (c.alloc n).1 ≠ SIZE_T_MINUS_ONE := hserved _ (List.mem_cons_self _ _)
    have h2 := alloc_served c n h1
    apply ih
    · rw [h2.2]; exact Nat.le_of_lt h2.1
    · intro r hr
      exact hserved r (List.mem_cons_of_mem _ hr)

/-- Two served calls on the 4-block arena: 1 block, then 2 blocks. -/
theorem C14_alloc_invariant_witness :
    arena4.next_block ≤ arena4.switch_block_threshold ∧
      (arena4.allocAll [1, 2]).1 = [0, 1] ∧
      (arena4.allocAll [1, 2]).2.next_block ≤
        (arena4.allocAll [1, 2]).2.switch_block_threshold :=
  ⟨by decide, by decide, C14_alloc_invariant arena4 [1, 2] (by decide) (by decide)⟩

/-- A refused call breaks the invariant: on the empty 4-block arena
`alloc(5)` returns `(size_t)-1` and leaves `next_block = 5 > 4`. -/
theorem C14_counterexample_refused_call :
    arena4.next_block ≤ arena4.switch_block_threshold ∧
      (arena4.allocAll [5]).1 = [SIZE_T_MINUS_ONE] ∧
      (arena4.allocAll [5]).2.next_block = 5 ∧
      ¬ ((arena4.allocAll [5]).2.next_block ≤ (arena4.allocAll [5]).2.switch_block_threshold) := by
  decide

/-! ## Empty and populated tags, agreement of the readers -/

/-- C18: the default-constructed tag is the zero word, and `lookup`,
`lookupIndex` and `validTag` report it as a miss on every cache (every
generation); for every arena pointer `base + offset` with `offset` even and at
most `0xFFFFFFFF`, and every generation, the word built by `Tag(ptr, gen)` has
bit 0 set and differs from the empty tag. -/
theorem C18_empty_and_populated (c : SharedLazyTessellationCache) (offset gen : Nat)
    (hoff : offset ≤ 0xFFFFFFFF) (heven : offset &&& 1 = 0) :
    Tag.empty.data = 0 ∧
      c.lookup Tag.empty = nullptr ∧
      c.lookupIndex Tag.empty = SIZE_T_MINUS_ONE ∧
      c.validTag Tag.empty = false ∧
      toSizeT (Tag.Tag c ((c.data + offset) % 18446744073709551616) gen).data &&& REF_TAG = 1 ∧
      Tag.Tag c ((c.data + offset) % 18446744073709551616) gen ≠ Tag.empty := by
  have hev : offset % 2 = 0 := by rw [← Nat.and_one_is_mod]; exact heven
  have hlt : offset < 4294967296 := by omega
  have hd := tag_data c offset gen hlt hev
  refine ⟨rfl, rfl, rfl, rfl, ?_, ?_⟩
  · rw [hd, toSizeT_toInt64]
    unfold REF_TAG
    rw [Nat.and_one_is_mod]
    omega
  · intro h
    have h2 : (Tag.Tag c ((c.data + offset) % 18446744073709551616) gen).data = 0 := by
      rw [h]; rfl
    rw [hd] at h2
    exact toInt64_ne_zero _ _ hev h2

/-- The tag for offset 128 of `arena4` at generation 1 is the word
`0x1_00000081`. -/
theorem C18_empty_and_populated_witness :
    (128 : Nat) ≤ 0xFFFFFFFF ∧ (128 : Nat) &&& 1 = 0 ∧
      (Tag.Tag arena4 4224 1).data = 4294967425 ∧
      (Tag.empty.data = 0 ∧
        arena4.lookup Tag.empty = nullptr ∧
        arena4.lookupIndex Tag.empty = SIZE_T_MINUS_ONE ∧
        arena4.validTag Tag.empty = false ∧
        toSizeT (Tag.Tag arena4 ((arena4.data + 128) % 18446744073709551616) 1).data
          &&& REF_TAG = 1 ∧
        Tag.Tag arena4 ((arena4.data + 128) % 18446744073709551616) 1 ≠ Tag.empty) :=
  ⟨by decide, by decide, by decide, C18_empty_and_populated arena4 128 1 (by decide) (by decide)⟩

theorem mask_le (x : Nat) : x &&& 0xFFFFFFFE ≤ 0xFFFFFFFE := by
  rw [and_ref_tag_mask]
  omega

theorem validTag_eq (c : SharedLazyTessellationCache) (tag : Tag) :
    c.validTag tag =
      (decide (tag.data ≠ 0) &&
        decide ((extractCommitIndex tag.data + 7) % 18446744073709551616 ≥ c.index)) := by
  unfold SharedLazyTessellationCache.validTag SharedLazyTessellationCache.validCacheIndex
    NUM_CACHE_SEGMENTS
  by_cases h : tag.data = 0
  · simp [h]
  · simp [h]

theorem lookupIndex_eq (c : SharedLazyTessellationCache) (tag : Tag) :
    c.lookupIndex tag =
      if tag.data = 0 then SIZE_T_MINUS_ONE
      else if (extractCommitIndex tag.data + 7) % 18446744073709551616 ≥ c.index then
        toSizeT tag.data &&& 0xFFFFFFFE
      else SIZE_T_MINUS_ONE := by
  unfold SharedLazyTessellationCache.lookupIndex SharedLazyTessellationCache.validCacheIndex
    NUM_CACHE_SEGMENTS
  rw [REF_TAG_MASK_eq]
  by_cases h : tag.data = 0
  · simp [h]
  · simp only [h, ne_eq, not_false_eq_true, if_true, if_false, decide_eq_true_eq]

/-- C19 (as amended): for every tag word and every cache (every generation)
with a non-null base such that base plus the offset stored in the tag does not
wrap around `2 ^ 64`, `lookup` returns a non-null pointer exactly when
`validTag` is true and exactly when `lookupIndex` is not `(size_t)-1`, and in
that case `lookup(tag) = base + lookupIndex(tag)`. -/
theorem C19_readers_agree (c : SharedLazyTessellationCache) (tag : Tag)
    (hbase : c.data ≠ nullptr)
    (hsum : c.data + (toSizeT tag.data &&& 0xFFFFFFFE) < 18446744073709551616) :
    (c.lookup tag ≠ nullptr ↔ c.validTag tag = true) ∧
      (c.validTag tag = true ↔ c.lookupIndex tag ≠ SIZE_T_MINUS_ONE) ∧
      (c.validTag tag = true → c.lookup tag = c.data + c.lookupIndex tag) := by
  have hm := mask_le (toSizeT tag.data)
  rw [lookup_eq, validTag_eq, lookupIndex_eq]
  unfold nullptr at hbase ⊢
  unfold SIZE_T_MINUS_ONE
  by_cases h : tag.data = 0
  · simp [h]
  · by_cases hv : (extractCommitIndex tag.data + 7) % 18446744073709551616 ≥ c.index
    · simp only [h, hv, if_false, if_true, ne_eq, not_false_eq_true, decide_True, Bool.and_self,
        true_iff, iff_true, true_implies]
      refine ⟨?_, ?_, ?_⟩ <;> omega
    · simp [h, hv]

/-- The tag `0x1_00000081` on `arena4`: valid, offset 128, pointer 4224. -/
theorem C19_readers_agree_witness :
    arena4.data ≠ nullptr ∧
      arena4.lookup ⟨4294967425⟩ = 4224 ∧
      arena4.lookupIndex ⟨4294967425⟩ = 128 ∧
      ((arena4.lookup ⟨4294967425⟩ ≠ nullptr ↔ arena4.validTag ⟨4294967425⟩ = true) ∧
        (arena4.validTag ⟨4294967425⟩ = true ↔
          arena4.lookupIndex ⟨4294967425⟩ ≠ SIZE_T_MINUS_ONE) ∧
        (arena4.validTag ⟨4294967425⟩ = true →
          arena4.lookup ⟨4294967425⟩ = arena4.data + arena4.lookupIndex ⟨4294967425⟩)) :=
  ⟨by decide, by decide, by decide,
    C19_readers_agree arena4 ⟨4294967425⟩ (by decide) (by decide)⟩

/-- With the base 64 bytes below `2 ^ 64`, the tag `0x1_00000041` (offset 64,
generation 1) is valid and `lookupIndex` returns 64, but `lookup` computes
`base + 64 = 0` in `size_t` and returns the null pointer. -/
theorem C19_counterexample_base_wraps :
    (18446744073709551552 : Nat) ≠ nullptr ∧
      SharedLazyTessellationCache.validTag
        { arena4 with data := 18446744073709551552 } ⟨4294967361⟩ = true ∧
      SharedLazyTessellationCache.lookupIndex
        { arena4 with data := 18446744073709551552 } ⟨4294967361⟩ = 64 ∧
      SharedLazyTessellationCache.lookup
        { arena4 with data := 18446744073709551552 } ⟨4294967361⟩ = nullptr := by
  decide

/-! ## The reader lock loop -/

theorem nat_brecOn_succ {motive : Nat → Type}
    (F : (n : Nat) → Nat.below (motive := motive) n → motive n) (n : Nat) :
    ∃ B : Nat.below (motive := motive) (n + 1),
      B.1 = Nat.brecOn n F ∧ Nat.brecOn (n + 1) F = F (n + 1) B :=
  ⟨_, rfl, rfl⟩

/-- One unfolding of a function defined by structural recursion on its fuel,
stated for an arbitrary recursion functional `F` whose successor case is
`body` applied to the recursive call. -/
theorem nat_brecOn_unfold {α β : Type}
    (F : (n : Nat) → Nat.below (motive := fun _ => α → β) n → α → β)
    (body : (α → β) → α → β)
    (hF : ∀ n (B : Nat.below (motive := fun _ => α → β) (n + 1)) t, F (n + 1) B t = body B.1 t)
    (fuel : Nat) (t : α) :
    Nat.brecOn (motive := fun _ => α → β) (fuel + 1) F t
      = body (fun x => Nat.brecOn (motive := fun _ => α → β) fuel F x) t := by
  obtain ⟨B, hB, h⟩ := nat_brecOn_succ (motive := fun _ => α → β) F fuel
  rw [h, hF, hB]

section
set_option allowUnsafeReducibility true
seal SharedLazyTessellationCache.waitForUsersLessEqual
seal Nat.brecOn

theorem lockThreadLoop_brecOn :
    ∃ F : (n : Nat) → Nat.below (motive := fun _ => ThreadWorkState → Option ThreadWorkState) n →
        ThreadWorkState → Option ThreadWorkState,
      (∀ n t, SharedLazyTessellationCache.lockThreadLoop n t =
        Nat.brecOn (motive := fun _ => ThreadWorkState → Option ThreadWorkState) n F t) ∧
      (∀ n (B : Nat.below (motive := fun _ => ThreadWorkState → Option ThreadWorkState) (n + 1)) t,
        F (n + 1) B t =
          if (SharedLazyTessellationCache.lockThread t).1 = 1 then
            (SharedLazyTessellationCache.waitForUsersLessEqual
              (SharedLazyTessellationCache.unlockThread
                (SharedLazyTessellationCache.lockThread t).2).2 0).bind B.1
          else some (SharedLazyTessellationCache.lockThread t).2) := by
  apply Exists.intro
  apply And.intro
  · intro n t
    delta SharedLazyTessellationCache.lockThreadLoop
    exact rfl
  · intro n B t
    dsimp only
    generalize SharedLazyTessellationCache.waitForUsersLessEqual
      (SharedLazyTessellationCache.unlockThread
        (SharedLazyTessellationCache.lockThread t).2).2 0 = w
    cases w <;> rfl

end

/-- One iteration of `lockThreadLoop`. -/
theorem lockThreadLoop_succ (fuel : Nat) (t : ThreadWorkState) :
    SharedLazyTessellationCache.lockThreadLoop (fuel + 1) t =
      if (SharedLazyTessellationCache.lockThread t).1 = 1 then
        (SharedLazyTessellationCache.waitForUsersLessEqual
          (SharedLazyTessellationCache.unlockThread
            (SharedLazyTessellationCache.lockThread t).2).2 0).bind
          (SharedLazyTessellationCache.lockThreadLoop fuel)
      else some (SharedLazyTessellationCache.lockThread t).2 := by
  obtain ⟨F, hf, hF⟩ := lockThreadLoop_brecOn
  have hfold : (fun x => Nat.brecOn (motive := fun _ => ThreadWorkState → Option ThreadWorkState)
      fuel F x) = SharedLazyTessellationCache.lockThreadLoop fuel :=
    funext (fun x => (hf fuel x).symm)
  rw [hf, nat_brecOn_unfold F
    (fun k t => if (SharedLazyTessellationCache.lockThread t).1 = 1 then
        (SharedLazyTessellationCache.waitForUsersLessEqual
          (SharedLazyTessellationCache.unlockThread
            (SharedLazyTessellationCache.lockThread t).2).2 0).bind k
      else some (SharedLazyTessellationCache.lockThread t).2) hF fuel t, hfold]

theorem lockThread_fst (t : ThreadWorkState) :
    (SharedLazyTessellationCache.lockThread t).1 = t.counter % 4294967296 := rfl

theorem lockThread_snd (t : ThreadWorkState) :
    (SharedLazyTessellationCache.lockThread t).2 = ⟨(t.counter + 1) % 18446744073709551616⟩ := rfl

theorem unlockThread_snd (t : ThreadWorkState) :
    (SharedLazyTessellationCache.unlockThread t).2 =
      ⟨(t.counter + 18446744073709551615) % 18446744073709551616⟩ := rfl

/-- Undoing the increment puts the counter back (as a 64-bit word). -/
theorem unlockThread_lockThread (t : ThreadWorkState) :
    (SharedLazyTessellationCache.unlockThread (SharedLazyTessellationCache.lockThread t).2).2 =
      ⟨t.counter % 18446744073709551616⟩ := by
  rw [lockThread_snd, unlockThread_snd]
  show (⟨((t.counter + 1) % 18446744073709551616 + 18446744073709551615)
    % 18446744073709551616⟩ : ThreadWorkState) = _
  rw [show ((t.counter + 1) % 18446744073709551616 + 18446744073709551615)
    % 18446744073709551616 = t.counter % 18446744073709551616 from by omega]

theorem waitForUsersLessEqual_pos (x : Nat) (h : x ≠ 0) :
    SharedLazyTessellationCache.waitForUsersLessEqual ⟨x⟩ 0 = none := by
  unfold SharedLazyTessellationCache.waitForUsersLessEqual
  rw [if_neg]
  show ¬ x ≤ 0
  omega

/-- The loop in closed form: in a run with no other thread it returns exactly
when the value that `lockThread` returns (the counter before the increment,
as `unsigned int`) is not 1, and then after a single increment. -/
theorem lockThreadLoop_eq (fuel : Nat) (t : ThreadWorkState) :
    SharedLazyTessellationCache.lockThreadLoop (fuel + 1) t =
      if t.counter % 4294967296 = 1 then none
      else some ⟨(t.counter + 1) % 18446744073709551616⟩ := by
  rw [lockThreadLoop_succ, lockThread_fst, unlockThread_lockThread, lockThread_snd]
  by_cases h : t.counter % 4294967296 = 1
  · rw [if_pos h, if_pos h, waitForUsersLessEqual_pos _ (by omega)]
    rfl
  · rw [if_neg h, if_neg h]

theorem lockThreadLoop_some (fuel : Nat) (t t1 : ThreadWorkState)
    (h : SharedLazyTessellationCache.lockThreadLoop fuel t = some t1) :
    t.counter % 4294967296 ≠ 1 ∧ t1 = ⟨(t.counter + 1) % 18446744073709551616⟩ := by
  cases fuel with
  | zero => exact absurd h (by intro h0; cases h0)
  | succ k =>
    rw [lockThreadLoop_eq] at h
    by_cases hc : t.counter % 4294967296 = 1
    · rw [if_pos hc] at h
      cases h
    · rw [if_neg hc] at h
      exact ⟨hc, (Option.some.inj h).symm⟩

/-- C16 (as amended): `lockThreadLoop` has no test for a reset in progress; it
undoes its increment and waits exactly when the value returned by
`lockThread` (the counter before the increment, as `unsigned int`) is 1.  For
every starting counter `c` whose low 32 bits are not 1 the loop returns in
its first iteration, leaving the counter at `c + 1` (as a 64-bit word),
without decrementing or waiting.  When the low 32 bits of `c` are 1 the
increment is undone (the counter is `c` again) and, with no other thread to
bring the counter to 0, the wait never ends. -/
theorem C16_lockThreadLoop (fuel c : Nat) :
    SharedLazyTessellationCache.lockThreadLoop (fuel + 1) ⟨c⟩ =
        (if c % 4294967296 = 1 then none else some ⟨(c + 1) % 18446744073709551616⟩) ∧
      (c % 4294967296 ≠ 1 →
        SharedLazyTessellationCache.lockThreadLoop 1 ⟨c⟩ =
          some (SharedLazyTessellationCache.lockThread ⟨c⟩).2) ∧
      (SharedLazyTessellationCache.unlockThread
          (SharedLazyTessellationCache.lockThread ⟨c⟩).2).2 = ⟨c % 18446744073709551616⟩ ∧
      (c % 4294967296 = 1 →
        SharedLazyTessellationCache.waitForUsersLessEqual
          (SharedLazyTessellationCache.unlockThread
            (SharedLazyTessellationCache.lockThread ⟨c⟩).2).2 0 = none) := by
  refine ⟨lockThreadLoop_eq fuel ⟨c⟩, ?_, unlockThread_lockThread ⟨c⟩, ?_⟩
  · intro h
    rw [lockThreadLoop_eq, lockThread_snd]
    exact if_neg h
  · intro h
    rw [unlockThread_lockThread]
    exact waitForUsersLessEqual_pos _ (by show c % 18446744073709551616 ≠ 0; omega)

/-- With no reset in progress and the counter at 1 (the thread is already
inside the cache once), `lockThreadLoop` never returns with the counter at 2,
whatever the fuel. -/
theorem C16_counterexample_counter_one :
    ¬ ∃ fuel, SharedLazyTessellationCache.lockThreadLoop fuel ⟨1⟩ = some ⟨1 + 1⟩ := by
  rintro ⟨fuel, h⟩
  have h2 := (lockThreadLoop_some fuel ⟨1⟩ ⟨1 + 1⟩ h).1
  exact h2 (by decide)

/-! ## Locks held by `lookup(entry, constructor)` -/

theorem lookup_of_not_valid (c : SharedLazyTessellationCache) (tag : Tag)
    (h : c.validTag tag = false) : c.lookup tag = nullptr := by
  rw [validTag_eq] at h
  rw [lookup_eq]
  by_cases h0 : tag.data = 0
  · rw [if_pos h0]
  · rw [if_neg h0]
    by_cases hv : (extractCommitIndex tag.data + 7) % 18446744073709551616 ≥ c.index
    · simp [h0, hv] at h
    · rw [if_neg hv]

/-- The tag built for an arena pointer at a generation below `2 ^ 31` carries
that generation. -/
theorem extractCommitIndex_Tag (c : SharedLazyTessellationCache) (p g : Nat)
    (hg : g < 2147483648) (hbase : c.data ≤ p) (hp : p < 18446744073709551616)
    (hoff : p - c.data ≤ 0xFFFFFFFF) (heven : (p - c.data) &&& 1 = 0) :
    extractCommitIndex (Tag.Tag c p g).data = g ∧ (Tag.Tag c p g).data ≠ 0 := by
  have hev : (p - c.data) % 2 = 0 := by rw [← Nat.and_one_is_mod]; exact heven
  have hpe : p = (c.data + (p - c.data)) % 18446744073709551616 := by omega
  have hgm : g % 4294967296 = g := by omega
  have hd := tag_data c (p - c.data) g (by omega) hev
  rw [← hpe, hgm] at hd
  have hx := extractCommitIndex_toInt64 g (p - c.data) (by omega) (by omega) hev
  rw [if_pos hg] at hx
  rw [hd]
  exact ⟨hx, toInt64_ne_zero g (p - c.data) hev⟩

/-- C15 (as amended): on the build path of `lookup(entry, constructor)` the
generation stored in the published tag is the one read after the constructor
returned.  If the constructor returns the arena pointer `ret` and leaves the
cache `c1` at generation `G + r` (`G` the generation at entry, `r` the resets
it caused), with `G + r < 2 ^ 31`, then the call returns `ret`, the published
tag is `Tag(ret, G + r)`, the generation decoded from it is `G + r`, and at
generation `G + r` it passes `validTag` and `lookup` serves `ret` from it. -/
theorem C15_tag_generation_after_constructor (constructor : Constructor) (fuel : Nat)
    (c c1 : SharedLazyTessellationCache) (t_state t2 : ThreadWorkState) (entry : CacheEntry)
    (runs ret r : Nat)
    (hcount : t_state.counter % 4294967296 ≠ 1)
    (hfree : entry.mutex.writeLocked = false)
    (hinvalid : c.validTag entry.tag = false)
    (hctor : constructor c ⟨(t_state.counter + 1) % 18446744073709551616⟩ = some (ret, c1, t2))
    (hgen : c1.index = c.index + r)
    (hG : c.index + r < 2147483648)
    (hbase : c1.data ≤ ret) (hret : ret < 18446744073709551616)
    (hoff : ret - c1.data ≤ 0xFFFFFFFF) (heven : (ret - c1.data) &&& 1 = 0) :
    ∃ res,
      SharedLazyTessellationCache.lookup_or_build constructor (fuel + 1) c t_state entry runs =
        some res ∧
      res.ret = ret ∧ res.cache = c1 ∧ res.constructorRuns = runs + 1 ∧
      res.entry.tag = Tag.Tag c1 ret (c.index + r) ∧
      extractCommitIndex res.entry.tag.data = c.index + r ∧
      c1.validTag res.entry.tag = true ∧
      c1.lookup res.entry.tag = ret := by
  have hl : SharedLazyTessellationCache.lockThreadLoop (fuel + 1) t_state =
      some ⟨(t_state.counter + 1) % 18446744073709551616⟩ := by
    rw [lockThreadLoop_eq, if_neg hcount]
  have hmiss := lookup_of_not_valid c entry.tag hinvalid
  have hb := lookup_or_build_build constructor fuel c c1 t_state _ t2 entry runs ret hl hmiss
    hfree hinvalid hctor
  have hidx : c1.getCurrentIndex = c.index + r := hgen
  rw [hidx] at hb
  obtain ⟨hx, hne⟩ := extractCommitIndex_Tag c1 ret (c.index + r) hG hbase hret hoff heven
  have hlk := lookup_fresh_tag c1 ret (by omega) hbase hret hoff heven
  rw [hgen] at hlk
  refine ⟨_, hb, rfl, rfl, rfl, rfl, hx, ?_, hlk⟩
  show c1.validTag (Tag.Tag c1 ret (c.index + r)) = true
  rw [validTag_eq, hx, hgen]
  simp only [ne_eq, hne, not_false_eq_true, decide_True, Bool.true_and, decide_eq_true_eq]
  omega

/-- An arena with 3 of its 4 blocks used, at generation 1: the constructor
asks `malloc` for 2 blocks, which resets the cache once; the tag published
carries generation 2. -/
theorem C15_tag_generation_after_constructor_witness :
    constructorMalloc128 { arena4 with next_block := 3 } ⟨(0 + 1) % 18446744073709551616⟩ =
        some (4096, { arena4 with index := 2, next_block := 2 }, ⟨1⟩) ∧
      ∃ res,
        SharedLazyTessellationCache.lookup_or_build constructorMalloc128 (0 + 1)
            { arena4 with next_block := 3 } ⟨0⟩ ⟨⟨false⟩, Tag.empty⟩ 0 = some res ∧
        res.ret = 4096 ∧ res.cache = { arena4 with index := 2, next_block := 2 } ∧
        res.constructorRuns = 0 + 1 ∧
        res.entry.tag = Tag.Tag { arena4 with index := 2, next_block := 2 } 4096
          (({ arena4 with next_block := 3 } : SharedLazyTessellationCache).index + 1) ∧
        extractCommitIndex res.entry.tag.data =
          ({ arena4 with next_block := 3 } : SharedLazyTessellationCache).index + 1 ∧
        SharedLazyTessellationCache.validTag { arena4 with index := 2, next_block := 2 }
          res.entry.tag = true ∧
        SharedLazyTessellationCache.lookup { arena4 with index := 2, next_block := 2 }
          res.entry.tag = 4096 :=
  ⟨by decide,
    C15_tag_generation_after_constructor constructorMalloc128 0
      { arena4 with next_block := 3 } { arena4 with index := 2, next_block := 2 } ⟨0⟩ ⟨1⟩
      ⟨⟨false⟩, Tag.empty⟩ 0 4096 1
      (by decide) (by decide) (by decide) (by decide) (by decide) (by decide) (by decide)
      (by decide) (by decide) (by decide)⟩

/-- At generation `2 ^ 31 - 1` the same build resets the cache to generation
`2 ^ 31`; bit 31 of the generation becomes the sign of the tag word, and the
generation decoded from the published tag is `2 ^ 64 - 2 ^ 31`, not `2 ^ 31`.
At generation `2 ^ 32 - 1` the reset leads to generation `2 ^ 32`, of which
the tag keeps the low 32 bits: the published word is 1, it decodes to
generation 0 and fails the validity check at generation `2 ^ 32`. -/
theorem C15_counterexample_generation_truncated :
    (SharedLazyTessellationCache.lookup_or_build constructorMalloc128 1
        { arena4 with index := 2147483647, next_block := 3 } ⟨0⟩ ⟨⟨false⟩, Tag.empty⟩ 0 =
        some ⟨4096, { arena4 with index := 2147483648, next_block := 2 }, ⟨1⟩,
          ⟨⟨false⟩, ⟨-9223372036854775807⟩⟩, 1⟩ ∧
      extractCommitIndex (-9223372036854775807) = 18446744071562067968 ∧
      extractCommitIndex (-9223372036854775807) ≠ 2147483647 + 1) ∧
    (SharedLazyTessellationCache.lookup_or_build constructorMalloc128 1
        { arena4 with index := 4294967295, next_block := 3 } ⟨0⟩ ⟨⟨false⟩, Tag.empty⟩ 0 =
        some ⟨4096, { arena4 with index := 4294967296, next_block := 2 }, ⟨1⟩,
          ⟨⟨false⟩, ⟨1⟩⟩, 1⟩ ∧
      extractCommitIndex 1 = 0 ∧
      SharedLazyTessellationCache.validTag
        { arena4 with index := 4294967296, next_block := 2 } ⟨1⟩ = false ∧
      SharedLazyTessellationCache.lookup
        { arena4 with index := 4294967296, next_block := 2 } ⟨1⟩ = nullptr) := by
  decide


/-! ## The reader lock around a reset -/

theorem stepThread_lockLoop (constructor : Constructor) (c : SharedLazyTessellationCache)
    (entry : CacheEntry) (t : ThreadWorkState) (ret : Nat) :
    stepThread constructor c entry ⟨Pc.lockLoop, t, ret⟩ =
      if t.counter % 4294967296 = 1 then (c, entry, ⟨Pc.lockLoop, t, ret⟩)
      else (c, entry, ⟨Pc.lookupTag, ⟨(t.counter + 1) % 18446744073709551616⟩, ret⟩) := by
  unfold stepThread
  simp only
  rw [lockThreadLoop_eq]
  split_ifs <;> rfl


/-- What one step does to the write lock.  A thread that holds it either
keeps it, the mutex untouched, or releases it; a thread that does not hold it
either leaves the mutex untouched or takes it from the free state. -/
theorem stepThread_holds (constructor : Constructor) (c : SharedLazyTessellationCache)
    (entry : CacheEntry) (th : ThreadLocal) :
    (th.pc.holdsWriteLock = true →
      ((stepThread constructor c entry th).2.2.pc.holdsWriteLock = true ∧
          (stepThread constructor c entry th).2.1.mutex = entry.mutex) ∨
        ((stepThread constructor c entry th).2.2.pc.holdsWriteLock = false ∧
          (stepThread constructor c entry th).2.1.mutex.writeLocked = false)) ∧
      (th.pc.holdsWriteLock = false →
        ((stepThread constructor c entry th).2.2.pc.holdsWriteLock = false ∧
            (stepThread constructor c entry th).2.1.mutex = entry.mutex) ∨
          ((stepThread constructor c entry th).2.2.pc.holdsWriteLock = true ∧
            entry.mutex.writeLocked = false ∧
            (stepThread constructor c entry th).2.1.mutex.writeLocked = true)) := by
  obtain ⟨pc, t, ret⟩ := th
  obtain ⟨⟨locked⟩, tag⟩ := entry
  cases pc with
  | lockLoop =>
    rw [stepThread_lockLoop]
    split_ifs <;> simp [Pc.holdsWriteLock]
  | lookupTag =>
    unfold stepThread
    simp only
    split_ifs <;> simp [Pc.holdsWriteLock]
  | tryWriteLock =>
    unfold stepThread
    cases locked <;> simp [Pc.holdsWriteLock, RWMutex.try_write_lock]
  | checkValid =>
    unfold stepThread
    simp only
    split_ifs <;> simp [Pc.holdsWriteLock]
  | constructing =>
    unfold stepThread
    simp only
    cases constructor c t with
    | none => simp [Pc.holdsWriteLock]
    | some r =>
      obtain ⟨p, c1, t2⟩ := r
      simp [Pc.holdsWriteLock]
  | publish =>
    unfold stepThread
    simp [Pc.holdsWriteLock]
  | unlockReturn =>
    unfold stepThread
    simp [Pc.holdsWriteLock, RWMutex.write_unlock]
  | unlockRetry =>
    unfold stepThread
    simp [Pc.holdsWriteLock, RWMutex.write_unlock]
  | unlockThread =>
    unfold stepThread
    simp [Pc.holdsWriteLock]
  | returned =>
    unfold stepThread
    simp [Pc.holdsWriteLock]


/-- A step of any thread keeps the two facts that make the mutex a lock: a
thread at a position inside the locked region finds the mutex locked, and no
two threads are inside the locked region. -/
theorem step_holders (constructor : Constructor) (s : System) (i : Nat)
    (hA : ∀ k, (s.threads k).pc.holdsWriteLock = true → s.entry.mutex.writeLocked = true)
    (hB : ∀ k l, (s.threads k).pc.holdsWriteLock = true →
      (s.threads l).pc.holdsWriteLock = true → k = l) :
    (∀ k, ((s.step constructor i).threads k).pc.holdsWriteLock = true →
        (s.step constructor i).entry.mutex.writeLocked = true) ∧
      (∀ k l, ((s.step constructor i).threads k).pc.holdsWriteLock = true →
        ((s.step constructor i).threads l).pc.holdsWriteLock = true → k = l) := by
  have hthreads : ∀ k, (s.step constructor i).threads k =
      Function.update s.threads i (stepThread constructor s.cache s.entry (s.threads i)).2.2 k :=
    fun _ => rfl
  have hentry : (s.step constructor i).entry =
      (stepThread constructor s.cache s.entry (s.threads i)).2.1 := rfl
  have hother : ∀ k, k ≠ i → (s.step constructor i).threads k = s.threads k := by
    intro k hk
    rw [hthreads, Function.update_noteq hk]
  have hself : (s.step constructor i).threads i =
      (stepThread constructor s.cache s.entry (s.threads i)).2.2 := by
    rw [hthreads, Function.update_same]
  obtain ⟨h1, h2⟩ := stepThread_holds constructor s.cache s.entry (s.threads i)
  rw [← hself, ← hentry] at h1 h2
  cases hh : (s.threads i).pc.holdsWriteLock with
  | true =>
    have only_i : ∀ k, ((s.step constructor i).threads k).pc.holdsWriteLock = true → k = i := by
      intro k hk
      by_contra hne
      rw [hother k hne] at hk
      exact hne (hB k i hk hh)
    rcases h1 hh with ⟨_, hm⟩ | ⟨hk, _⟩
    · refine ⟨?_, ?_⟩
      · intro k _
        rw [hm]
        exact hA i hh
      · intro k l hk hl
        rw [only_i k hk, only_i l hl]
    · refine ⟨?_, ?_⟩
      · intro k hk'
        have := only_i k hk'
        subst this
        rw [hk] at hk'
        cases hk'
      · intro k l hk' hl
        rw [only_i k hk', only_i l hl]
  | false =>
    rcases h2 hh with ⟨hk, hm⟩ | ⟨_, hfree, hlocked⟩
    · have not_i : ∀ k, ((s.step constructor i).threads k).pc.holdsWriteLock = true →
          k ≠ i ∧ (s.threads k).pc.holdsWriteLock = true := by
        intro k hk'
        have hne : k ≠ i := by
          intro he
          subst he
          rw [hk] at hk'
          cases hk'
        rw [hother k hne] at hk'
        exact ⟨hne, hk'⟩
      refine ⟨?_, ?_⟩
      · intro k hk'
        rw [hm]
        exact hA k (not_i k hk').2
      · intro k l hk' hl
        exact hB k l (not_i k hk').2 (not_i l hl).2
    · have only_i : ∀ k, ((s.step constructor i).threads k).pc.holdsWriteLock = true →
          k = i := by
        intro k hk
        by_contra hne
        rw [hother k hne] at hk
        have := hA k hk
        rw [hfree] at this
        cases this
      refine ⟨?_, ?_⟩
      · intro k _
        exact hlocked
      · intro k l hk' hl
        rw [only_i k hk', only_i l hl]

theorem run_holders (constructor : Constructor) (schedule : List Nat) :
    ∀ (s : System),
      (∀ k, (s.threads k).pc.holdsWriteLock = true → s.entry.mutex.writeLocked = true) →
      (∀ k l, (s.threads k).pc.holdsWriteLock = true →
        (s.threads l).pc.holdsWriteLock = true → k = l) →
      (∀ k, ((s.run constructor schedule).threads k).pc.holdsWriteLock = true →
          (s.run constructor schedule).entry.mutex.writeLocked = true) ∧
        (∀ k l, ((s.run constructor schedule).threads k).pc.holdsWriteLock = true →
          ((s.run constructor schedule).threads l).pc.holdsWriteLock = true → k = l) := by
  induction schedule with
  | nil =>
    intro s hA hB
    exact ⟨hA, hB⟩
  | cons i rest ih =>
    intro s hA hB
    obtain ⟨hA1, hB1⟩ := step_holders constructor s i hA hB
    exact ih (s.step constructor i) hA1 hB1

/-- C12: any number of threads call `lookup(entry, constructor)` on one
entry, starting with no thread inside the locked region.  After every interleaving of their steps, at most one thread is
inside `constructor()`, and a thread that is inside it holds the write lock
of the entry (the mutex is locked, and no other thread is anywhere between
its `try_write_lock()` and its `write_unlock()`). -/
theorem C12_single_flight (constructor : Constructor) (s : System) (schedule : List Nat)
    (hstart : ∀ k, (s.threads k).pc.holdsWriteLock = false) :
    (∀ i j, ((s.run constructor schedule).threads i).pc = Pc.constructing →
        ((s.run constructor schedule).threads j).pc = Pc.constructing → i = j) ∧
      (∀ i, ((s.run constructor schedule).threads i).pc = Pc.constructing →
        (s.run constructor schedule).entry.mutex.writeLocked = true ∧
          ∀ j, ((s.run constructor schedule).threads j).pc.holdsWriteLock = true → j = i) := by
  have hA : ∀ k, (s.threads k).pc.holdsWriteLock = true → s.entry.mutex.writeLocked = true := by
    intro k hk
    rw [hstart k] at hk
    cases hk
  have hB : ∀ k l, (s.threads k).pc.holdsWriteLock = true →
      (s.threads l).pc.holdsWriteLock = true → k = l := by
    intro k l hk _
    rw [hstart k] at hk
    cases hk
  obtain ⟨gA, gB⟩ := run_holders constructor schedule s hA hB
  have hc : ∀ i, ((s.run constructor schedule).threads i).pc = Pc.constructing →
      ((s.run constructor schedule).threads i).pc.holdsWriteLock = true := by
    intro i hi
    rw [hi]
    rfl
  refine ⟨?_, ?_⟩
  · intro i j hi hj
    exact gB i j (hc i hi) (hc j hj)
  · intro i hi
    exact ⟨gA i (hc i hi), fun j hj => gB j i hj (hc i hi)⟩

/-- Two threads on the empty entry of `arena4`: thread 0 reaches the
constructor after four steps; thread 1 then fails `try_write_lock()` and goes
round the loop; after thread 0 has published and returned, thread 1 returns
the same pointer from the tag. -/
theorem C12_single_flight_witness :
    system0.entry.mutex.writeLocked = false ∧
      ((system0.run constructorAt128 [0, 0, 0, 0]).threads 0).pc = Pc.constructing ∧
      ((system0.run constructorAt128 [0, 0, 0, 0, 1, 1, 1]).threads 0).pc = Pc.constructing ∧
      ((system0.run constructorAt128 [0, 0, 0, 0, 1, 1, 1]).threads 1).pc = Pc.unlockThread ∧
      (system0.run constructorAt128 [0, 0, 0, 0, 1, 1, 1, 0, 0, 0, 1, 1, 1]).threads 0 =
        ⟨Pc.returned, ⟨1⟩, 4224⟩ ∧
      (system0.run constructorAt128 [0, 0, 0, 0, 1, 1, 1, 0, 0, 0, 1, 1, 1]).threads 1 =
        ⟨Pc.returned, ⟨1⟩, 4224⟩ ∧
      ((∀ i j,
          ((system0.run constructorAt128 [0, 0, 0, 0, 1, 1, 1]).threads i).pc = Pc.constructing →
          ((system0.run constructorAt128 [0, 0, 0, 0, 1, 1, 1]).threads j).pc = Pc.constructing →
          i = j) ∧
        (∀ i,
          ((system0.run constructorAt128 [0, 0, 0, 0, 1, 1, 1]).threads i).pc = Pc.constructing →
          (system0.run constructorAt128 [0, 0, 0, 0, 1, 1, 1]).entry.mutex.writeLocked = true ∧
            ∀ j, ((system0.run constructorAt128 [0, 0, 0, 0, 1, 1, 1]).threads j).pc.holdsWriteLock
              = true → j = i)) :=
  ⟨by decide, by decide, by decide, by decide, by decide, by decide,
    C12_single_flight constructorAt128 system0 [0, 0, 0, 0, 1, 1, 1] (fun _ => rfl)⟩

end embree
